import Mathlib

/-!
# ShaderProgram (Engine/include/ShaderProgram.hpp)

A shallow embedding of the header-only class `ShaderProgram`: the helper
`readFile` and the constructor that compiles, attaches and links up to three
shader stages through the OpenGL driver.

* Text (`std::string`, `const char*`) is a list of characters.
* The file system is a function from a path to the file it opens, if any: the
  characters that reads deliver and whether the read after them fails, as
  every read of a directory does, instead of reporting the end of the file.
  A stream whose read fails goes bad without reaching the end of the file, as
  with libstdc++; the loop of `readFile`, which tests `eof()` alone, then goes
  on appending a line feed to `content` at each iteration, for as long as
  memory lasts, and `readFile` does not return.
* A construction either returns or is left in such a read loop; in both cases
  the calls made and the diagnostics written up to there are kept.
* The OpenGL driver is a parameter: its answers are arbitrary functions of the
  transcript of the calls made so far.  A query may leave its output parameter
  untouched, which is what OpenGL does when it raises an error.
* Standard error is the list of the diagnostics written, with `Diag.render`
  giving the characters of each one.
-/

namespace Engine

/-- Characters of a `std::string` or of a C string. -/
abbrev Text := List Char

/-- The line feed, the delimiter of `std::getline`. -/
def LF : Char := Char.ofNat 10

/-- The terminator of a C string. -/
def NUL : Char := Char.ofNat 0

/-- What `s.c_str()` denotes when read as a C string: the characters before the
first NUL. -/
def c_str : Text → Text
  | [] => []
  | c :: cs => if c = NUL then [] else c :: c_str cs

/-! ## The input stream -/

/-- What opening a path for reading gives: the characters that reads deliver,
and whether the read after the last of them fails instead of reporting the end
of the file. -/
structure File where
  content : Text
  readError : Bool
  deriving DecidableEq, Repr

/-- A regular file with the given content. -/
def File.regular (content : Text) : File :=
  { content := content, readError := false }

/-- A directory: it opens for reading and its first read fails. -/
def File.directory : File :=
  { content := [], readError := true }

/-- An opened `std::ifstream`, reduced to what `readFile` observes of it: the
characters not yet extracted, whether the read after them fails, and the three
state flags. -/
structure IfStream where
  unread : Text
  readError : Bool
  eofbit : Bool
  failbit : Bool
  badbit : Bool
  deriving DecidableEq, Repr

/-- The stream just after a successful open. -/
def IfStream.opened (file : File) : IfStream :=
  { unread := file.content, readError := file.readError, eofbit := false, failbit := false,
    badbit := false }

/-- The member `good()`: no state flag is set. -/
def IfStream.good (s : IfStream) : Bool := !(s.eofbit || s.failbit || s.badbit)

/-- The member `eof()`: the end-of-file flag. -/
def IfStream.eof (s : IfStream) : Bool := s.eofbit

/-- The extraction loop of `std::getline`: characters are moved to the line
until a line feed is extracted (and dropped), which leaves `some rest`, or the
characters run out, which leaves `none`. -/
def extractLine : Text → Text × Option Text
  | [] => ([], none)
  | c :: cs =>
    if c = LF then ([], some cs)
    else ((c :: (extractLine cs).1), (extractLine cs).2)

/-- The call `std::getline(fileStream, line)`.  When the stream is not good the
sentry fails: the line is left as it was and the fail flag is set.  Otherwise
the line is erased and refilled.  Running out of characters at the end of the
file sets the end-of-file flag; running out of them at a read that fails sets
the bad flag and not the end-of-file flag; in both cases the fail flag is set
too when nothing was extracted. -/
def getline (s : IfStream) (line : Text) : IfStream × Text :=
  if !s.good then
    ({ s with failbit := true }, line)
  else
    match extractLine s.unread with
    | (l, some rest) => ({ s with unread := rest }, l)
    | (l, none) =>
      if s.readError then ({ s with unread := [], failbit := l.isEmpty, badbit := true }, l)
      else ({ s with unread := [], eofbit := true, failbit := l.isEmpty }, l)

/-! ## Standard error -/

/-- The three shader stages, also the tags of the diagnostics. -/
inductive Stage where
  | VERTEX
  | FRAGMENT
  | GEOMETRY
  deriving DecidableEq, Repr

/-- One write to `std::cerr`, up to and including its `std::endl`. -/
inductive Diag where
  | couldNotRead (filePath : Text)
  | compilationFailed (stage : Stage) (infoLog : Text)
  | linkingFailed (stage : Stage) (infoLog : Text)
  deriving DecidableEq, Repr

/-- Name of a stage as it is spelled in the diagnostics. -/
def Stage.tag : Stage → Text
  | .VERTEX => "VERTEX".toList
  | .FRAGMENT => "FRAGMENT".toList
  | .GEOMETRY => "GEOMETRY".toList

/-- The characters a diagnostic puts on standard error. -/
def Diag.render : Diag → Text
  | .couldNotRead filePath =>
    "Could not read file ".toList ++ filePath ++ ". File does not exist.".toList ++ [LF]
  | .compilationFailed stage infoLog =>
    "ERROR::SHADER::".toList ++ stage.tag ++ "::COMPILATION_FAILED".toList ++ [LF]
      ++ infoLog ++ [LF]
  | .linkingFailed stage infoLog =>
    "ERROR::SHADER::".toList ++ stage.tag ++ "::PROGRAM_LINKING_FAILED".toList ++ [LF]
      ++ infoLog ++ [LF]

/-- The stage a diagnostic is tagged with, if any. -/
def Diag.stage : Diag → Option Stage
  | .couldNotRead _ => none
  | .compilationFailed stage _ => some stage
  | .linkingFailed stage _ => some stage

/-! ## readFile -/

/-- The loop `while (!fileStream.eof()) { getline; content.append(line + "\n") }`.
The first argument bounds the number of iterations; `none` means the bound was
reached with the loop still running. -/
def readLoop : Nat → IfStream → Text → Text → Option Text
  | 0, s, _, content => if s.eof then some content else none
  | fuel + 1, s, line, content =>
    if s.eof then some content
    else
      let r := getline s line
      readLoop fuel r.1 r.2 (content ++ (r.2 ++ [LF]))

/-- The member `readFile(filePath)`: the text returned and what standard error
holds afterwards, or `none` when the call does not return.  The loop is given
one iteration per character of the file and one more: a loop that has not
ended by then never ends (`readLoop_regular`, `readLoop_readError`). -/
def readFile (fs : Text → Option File) (filePath : Text) (cerr : List Diag) :
    Option (Text × List Diag) :=
  match fs filePath with
  | none => some ([], cerr ++ [Diag.couldNotRead filePath])
  | some file =>
    (readLoop (file.content.length + 1) (IfStream.opened file) [] []).map
      (fun content => (content, cerr))

/-! ## The OpenGL driver -/

/-- The two parameter names the constructor queries. -/
inductive PName where
  | COMPILE_STATUS
  | LINK_STATUS
  deriving DecidableEq, Repr

/-- One call into the driver, with its arguments and what came back: the value
returned by a creation call, or what a query wrote through its output pointer
(`none` when it wrote nothing).  `deleteProgram` belongs to the vocabulary of
the driver although the constructor has no such call. -/
inductive GLEvent where
  | createShader (type : Stage) (ret : Nat)
  | shaderSource (shader : Nat) (source : Text)
  | compileShader (shader : Nat)
  | getShaderiv (shader : Nat) (pname : PName) (wrote : Option Int)
  | getShaderInfoLog (shader : Nat) (bufSize : Nat) (wrote : Option Text)
  | createProgram (ret : Nat)
  | attachShader (program : Nat) (shader : Nat)
  | linkProgram (program : Nat)
  | getProgramiv (program : Nat) (pname : PName) (wrote : Option Int)
  | getProgramInfoLog (program : Nat) (bufSize : Nat) (wrote : Option Text)
  | deleteShader (shader : Nat)
  | deleteProgram (program : Nat)
  deriving DecidableEq, Repr

/-- The driver, as far as the constructor can tell: each answer is a function
of the transcript so far and of the arguments.  A query answers `none` when it
leaves the output parameter alone (the name is not an object of the right
kind); an info log query answers with the whole log of the object. -/
structure Driver where
  createShader : List GLEvent → Stage → Nat
  getShaderiv : List GLEvent → Nat → PName → Option Int
  getShaderInfoLog : List GLEvent → Nat → Option Text
  createProgram : List GLEvent → Nat
  getProgramiv : List GLEvent → Nat → PName → Option Int
  getProgramInfoLog : List GLEvent → Nat → Option Text

/-- Number of values of `GLuint` and of `unsigned int`. -/
def UINT_RANGE : Nat := 4294967296

/-- Conversion of a `GLuint` to `int`, as in `int vertexShader = glCreateShader(..)`. -/
def toInt (u : Nat) : Int :=
  if u % UINT_RANGE < 2147483648 then ((u % UINT_RANGE : Nat) : Int)
  else ((u % UINT_RANGE : Nat) : Int) - 4294967296

/-- Conversion of an `int` to `GLuint` or `unsigned int`, as when `vertexShader`
is passed to the driver and in `id = shaderProgram`. -/
def toGLuint (i : Int) : Nat := (i % 4294967296).toNat

/-- What the constructor has done and holds at a point of its body: the
transcript of driver calls, standard error, and the locals `success` and
`infoLog` that the queries write through. -/
structure Frame where
  calls : List GLEvent
  cerr : List Diag
  success : Int
  infoLog : Text

/-- The call `glCreateShader(type)`; the value returned is a `GLuint`. -/
def glCreateShader (gl : Driver) (type : Stage) (fr : Frame) : Nat × Frame :=
  let ret := gl.createShader fr.calls type % UINT_RANGE
  (ret, { fr with calls := fr.calls ++ [GLEvent.createShader type ret] })

/-- The call `glShaderSource(shader, 1, &source, NULL)`. -/
def glShaderSource (shader : Nat) (source : Text) (fr : Frame) : Frame :=
  { fr with calls := fr.calls ++ [GLEvent.shaderSource shader source] }

/-- The call `glCompileShader(shader)`. -/
def glCompileShader (shader : Nat) (fr : Frame) : Frame :=
  { fr with calls := fr.calls ++ [GLEvent.compileShader shader] }

/-- The call `glGetShaderiv(shader, pname, &success)`. -/
def glGetShaderiv (gl : Driver) (shader : Nat) (pname : PName) (fr : Frame) : Frame :=
  let wrote := gl.getShaderiv fr.calls shader pname
  { fr with
    calls := fr.calls ++ [GLEvent.getShaderiv shader pname wrote]
    success := wrote.getD fr.success }

/-- The call `glGetShaderInfoLog(shader, bufSize, NULL, infoLog)`: at most
`bufSize - 1` characters of the log reach the buffer. -/
def glGetShaderInfoLog (gl : Driver) (shader : Nat) (bufSize : Nat) (fr : Frame) : Frame :=
  let wrote := (gl.getShaderInfoLog fr.calls shader).map (List.take (bufSize - 1))
  { fr with
    calls := fr.calls ++ [GLEvent.getShaderInfoLog shader bufSize wrote]
    infoLog := wrote.getD fr.infoLog }

/-- The call `glCreateProgram()`; the value returned is a `GLuint`. -/
def glCreateProgram (gl : Driver) (fr : Frame) : Nat × Frame :=
  let ret := gl.createProgram fr.calls % UINT_RANGE
  (ret, { fr with calls := fr.calls ++ [GLEvent.createProgram ret] })

/-- The call `glAttachShader(program, shader)`. -/
def glAttachShader (program : Nat) (shader : Nat) (fr : Frame) : Frame :=
  { fr with calls := fr.calls ++ [GLEvent.attachShader program shader] }

/-- The call `glLinkProgram(program)`. -/
def glLinkProgram (program : Nat) (fr : Frame) : Frame :=
  { fr with calls := fr.calls ++ [GLEvent.linkProgram program] }

/-- The call `glGetProgramiv(program, pname, &success)`. -/
def glGetProgramiv (gl : Driver) (program : Nat) (pname : PName) (fr : Frame) : Frame :=
  let wrote := gl.getProgramiv fr.calls program pname
  { fr with
    calls := fr.calls ++ [GLEvent.getProgramiv program pname wrote]
    success := wrote.getD fr.success }

/-- The call `glGetProgramInfoLog(program, bufSize, NULL, infoLog)`: at most
`bufSize - 1` characters of the log reach the buffer. -/
def glGetProgramInfoLog (gl : Driver) (program : Nat) (bufSize : Nat) (fr : Frame) : Frame :=
  let wrote := (gl.getProgramInfoLog fr.calls program).map (List.take (bufSize - 1))
  { fr with
    calls := fr.calls ++ [GLEvent.getProgramInfoLog program bufSize wrote]
    infoLog := wrote.getD fr.infoLog }

/-- The call `glDeleteShader(shader)`. -/
def glDeleteShader (shader : Nat) (fr : Frame) : Frame :=
  { fr with calls := fr.calls ++ [GLEvent.deleteShader shader] }

/-- A statement `std::cerr << .. << std::endl`. -/
def cerrWrite (d : Diag) (fr : Frame) : Frame :=
  { fr with cerr := fr.cerr ++ [d] }

/-! ## The constructor -/

/-- Everything a construction depends on besides its three arguments: the file
system, the driver, and the values the uninitialised locals `success`,
`infoLog` and `geometryShader` happen to hold. -/
structure Env where
  fs : Text → Option File
  gl : Driver
  success0 : Int
  infoLog0 : Text
  geometryShader0 : Int

/-- The object after construction, `id`, together with the driver calls made
and the diagnostics written during construction. -/
structure Constructed where
  id : Nat
  calls : List GLEvent
  cerr : List Diag
  deriving DecidableEq, Repr

/-- How a construction ends: `Except.ok` with the object when the constructor
returns, `Except.error` with the frame reached when a call of `readFile` does
not return, its loop going on without end, and so neither does the
constructor. -/
abbrev Outcome := Except Frame Constructed

/-- The driver calls made during a construction, whether it returns or not. -/
def transcript : Outcome → List GLEvent
  | Except.ok out => out.calls
  | Except.error fr => fr.calls

/-- The diagnostics written during a construction, whether it returns or not. -/
def written : Outcome → List Diag
  | Except.ok out => out.cerr
  | Except.error fr => fr.cerr

/-- A call of `readFile` inside the constructor: when it does not return,
neither does the constructor, which stays in the frame it had reached. -/
def readFileIn (fs : Text → Option File) (filePath : Text) (fr : Frame) :
    Except Frame (Text × Frame) :=
  match readFile fs filePath fr.cerr with
  | some read => Except.ok (read.1, { fr with cerr := read.2 })
  | none => Except.error fr

/-- Lines 46 to 61, `// vertex shader`: the shader is created, given the text
of the file at `v_path`, compiled and checked.  The value is the local
`vertexShader`. -/
def compileVertex (env : Env) (v_path : Text) (fr : Frame) : Except Frame (Int × Frame) := do
  let created := glCreateShader env.gl Stage.VERTEX fr
  let vertexShader := toInt created.1
  let fr := created.2
  let read ← readFileIn env.fs (c_str v_path) fr
  let vertexShaderString := read.1
  let fr := read.2
  let vertexShaderSource := c_str vertexShaderString
  let fr := glShaderSource (toGLuint vertexShader) vertexShaderSource fr
  let fr := glCompileShader (toGLuint vertexShader) fr
  -- check for shader compile errors
  let fr := glGetShaderiv env.gl (toGLuint vertexShader) PName.COMPILE_STATUS fr
  let fr :=
    if fr.success = 0 then
      let fr := glGetShaderInfoLog env.gl (toGLuint vertexShader) 512 fr
      cerrWrite (Diag.compilationFailed Stage.VERTEX fr.infoLog) fr
    else fr
  pure (vertexShader, fr)

/-- Lines 63 to 76, `// fragment shader`: the same steps for the file at
`f_path`.  The value is the local `fragmentShader`. -/
def compileFragment (env : Env) (f_path : Text) (fr : Frame) : Except Frame (Int × Frame) := do
  let created := glCreateShader env.gl Stage.FRAGMENT fr
  let fragmentShader := toInt created.1
  let fr := created.2
  let read ← readFileIn env.fs (c_str f_path) fr
  let fragmentShaderString := read.1
  let fr := read.2
  let fragmentShaderSource := c_str fragmentShaderString
  let fr := glShaderSource (toGLuint fragmentShader) fragmentShaderSource fr
  let fr := glCompileShader (toGLuint fragmentShader) fr
  -- check for shader compile errors
  let fr := glGetShaderiv env.gl (toGLuint fragmentShader) PName.COMPILE_STATUS fr
  let fr :=
    if fr.success = 0 then
      let fr := glGetShaderInfoLog env.gl (toGLuint fragmentShader) 512 fr
      cerrWrite (Diag.compilationFailed Stage.FRAGMENT fr.infoLog) fr
    else fr
  pure (fragmentShader, fr)

/-- Lines 83 to 94, the body of `if (g_path != "")`: the same steps for the file
at `g_path`.  The value is what is assigned to the local `geometryShader`. -/
def compileGeometry (env : Env) (g_path : Text) (fr : Frame) : Except Frame (Int × Frame) := do
  let created := glCreateShader env.gl Stage.GEOMETRY fr
  let geometryShader := toInt created.1
  let fr := created.2
  let read ← readFileIn env.fs (c_str g_path) fr
  let geometryShaderString := read.1
  let fr := read.2
  let geometryShaderSource := c_str geometryShaderString
  let fr := glShaderSource (toGLuint geometryShader) geometryShaderSource fr
  let fr := glCompileShader (toGLuint geometryShader) fr
  -- check for shader compile errors
  let fr := glGetShaderiv env.gl (toGLuint geometryShader) PName.COMPILE_STATUS fr
  let fr :=
    if fr.success = 0 then
      let fr := glGetShaderInfoLog env.gl (toGLuint geometryShader) 512 fr
      cerrWrite (Diag.compilationFailed Stage.GEOMETRY fr.infoLog) fr
    else fr
  pure (geometryShader, fr)

/-- Lines 97 to 104, `// link shaders`: the program is created, the shaders are
attached and the program is linked.  The value is the local `shaderProgram`. -/
def linkShaders (env : Env) (g_path : Text)
    (vertexShader fragmentShader geometryShader : Int) (fr : Frame) : Int × Frame :=
  let created := glCreateProgram env.gl fr
  let shaderProgram := toInt created.1
  let fr := created.2
  let fr := glAttachShader (toGLuint shaderProgram) (toGLuint vertexShader) fr
  let fr := glAttachShader (toGLuint shaderProgram) (toGLuint fragmentShader) fr
  let fr :=
    if !(g_path.length == 0) then
      glAttachShader (toGLuint shaderProgram) (toGLuint geometryShader) fr
    else fr
  let fr := glLinkProgram (toGLuint shaderProgram) fr
  (shaderProgram, fr)

/-- Lines 107 to 124, `// check for linking errors`. -/
def checkLinking (env : Env) (g_path : Text)
    (vertexShader fragmentShader geometryShader shaderProgram : Int) (fr : Frame) : Frame :=
  let fr := glGetProgramiv env.gl (toGLuint vertexShader) PName.LINK_STATUS fr
  let fr :=
    if fr.success = 0 then
      let fr := glGetProgramInfoLog env.gl (toGLuint shaderProgram) 512 fr
      cerrWrite (Diag.linkingFailed Stage.VERTEX fr.infoLog) fr
    else fr
  let fr := glGetProgramiv env.gl (toGLuint fragmentShader) PName.LINK_STATUS fr
  let fr :=
    if fr.success = 0 then
      let fr := glGetProgramInfoLog env.gl (toGLuint shaderProgram) 512 fr
      cerrWrite (Diag.linkingFailed Stage.FRAGMENT fr.infoLog) fr
    else fr
  if !(g_path.length == 0) then
    let fr := glGetProgramiv env.gl (toGLuint geometryShader) PName.LINK_STATUS fr
    if fr.success = 0 then
      let fr := glGetProgramInfoLog env.gl (toGLuint shaderProgram) 512 fr
      cerrWrite (Diag.linkingFailed Stage.GEOMETRY fr.infoLog) fr
    else fr
  else fr

/-- Lines 126 to 130: the shader objects are deleted. -/
def deleteShaders (g_path : Text)
    (vertexShader fragmentShader geometryShader : Int) (fr : Frame) : Frame :=
  let fr := glDeleteShader (toGLuint vertexShader) fr
  let fr := glDeleteShader (toGLuint fragmentShader) fr
  if !(g_path.length == 0) then glDeleteShader (toGLuint geometryShader) fr
  else fr

/-- The constructor `ShaderProgram(f_path, v_path, g_path)`; a construction
without a third argument has `g_path = []`.  The test `g_path != ""` is the
comparison with the empty text, the test `!g_path.empty()` is that of the
size. -/
def ShaderProgram (env : Env) (f_path v_path g_path : Text) : Outcome := do
  let fr : Frame :=
    { calls := [], cerr := [], success := env.success0, infoLog := env.infoLog0 }
  let vertex ← compileVertex env v_path fr
  let vertexShader := vertex.1
  let fragment ← compileFragment env f_path vertex.2
  let fragmentShader := fragment.1
  let geometry ←
    if g_path != [] then compileGeometry env g_path fragment.2
    else pure (env.geometryShader0, fragment.2)
  let geometryShader := geometry.1
  let linked := linkShaders env g_path vertexShader fragmentShader geometryShader geometry.2
  let shaderProgram := linked.1
  let id := toGLuint shaderProgram
  let fr := checkLinking env g_path vertexShader fragmentShader geometryShader shaderProgram
    linked.2
  let fr := deleteShaders g_path vertexShader fragmentShader geometryShader fr
  pure { id := id, calls := fr.calls, cerr := fr.cerr }

/-! ## A reference driver

A small driver that follows the object model of OpenGL: names are handed out
in sequence and shared by shaders and programs, the creation of a shader of a
stage the context does not support returns zero, a shader query is answered
only for the name of a shader and a program query only for the name of a
program.  What its compiler and linker decide is a parameter. -/

/-- The stages the context supports, and the verdicts and logs of the compiler
and the linker inside the driver. -/
structure Toolchain where
  supports : Stage → Bool
  compiles : Stage → Bool
  compileLog : Stage → Text
  links : Bool
  linkLog : Text

/-- Number of objects created so far. -/
def createdCount : List GLEvent → Nat
  | [] => 0
  | GLEvent.createShader _ ret :: tr => if ret = 0 then createdCount tr else createdCount tr + 1
  | GLEvent.createProgram _ :: tr => createdCount tr + 1
  | _ :: tr => createdCount tr

/-- The stage of the shader object with the given name, if there is one. -/
def shaderStage : List GLEvent → Nat → Option Stage
  | [], _ => none
  | GLEvent.createShader type ret :: tr, name =>
    if ret = name ∧ ret ≠ 0 then some type else shaderStage tr name
  | _ :: tr, name => shaderStage tr name

/-- Whether the name is that of a program object. -/
def isProgram : List GLEvent → Nat → Bool
  | [], _ => false
  | GLEvent.createProgram ret :: tr, name => ret == name || isProgram tr name
  | _ :: tr, name => isProgram tr name

/-- The reference driver for a given toolchain. -/
def refDriver (tc : Toolchain) : Driver where
  createShader tr type := if tc.supports type then createdCount tr + 1 else 0
  getShaderiv tr shader _ :=
    (shaderStage tr shader).map (fun type => if tc.compiles type then 1 else 0)
  getShaderInfoLog tr shader := (shaderStage tr shader).map tc.compileLog
  createProgram tr := createdCount tr + 1
  getProgramiv tr program _ :=
    if isProgram tr program then some (if tc.links then 1 else 0) else none
  getProgramInfoLog tr program := if isProgram tr program then some tc.linkLog else none

/-! ## Closed forms

A construction written out in terms of the answers the driver gave, used to
reason about the constructor without repeating the transcript inside every
answer. -/

/-- Whether the file at the path opens and has a read that fails, so that
`readFile` does not return. -/
def readHangs (fs : Text → Option File) (filePath : Text) : Bool :=
  match fs filePath with
  | none => false
  | some file => file.readError

/-- Text returned by `readFile` when it returns, in closed form. -/
def readText (fs : Text → Option File) (filePath : Text) : Text :=
  match fs filePath with
  | none => []
  | some file => file.content ++ [LF]

/-- Diagnostics written by `readFile`, in closed form. -/
def readDiags (fs : Text → Option File) (filePath : Text) : List Diag :=
  match fs filePath with
  | none => [Diag.couldNotRead filePath]
  | some _ => []

/-- The source text a stage submits for the file at a path: the C string of the
text `readFile` returns for the C string of the path. -/
def sourceOf (fs : Text → Option File) (path : Text) : Text :=
  c_str (readText fs (c_str path))

/-- The answers of the driver during a compile block entered with a frame:
the name of the shader, what the status query wrote and what the log query
wrote (or would have written). -/
def compileAnswers (gl : Driver) (stage : Stage) (src : Text) (fr : Frame) :
    Nat × Option Int × Option Text :=
  let sh := gl.createShader fr.calls stage % UINT_RANGE
  let tr := fr.calls ++ [GLEvent.createShader stage sh, GLEvent.shaderSource sh src,
    GLEvent.compileShader sh]
  let a := gl.getShaderiv tr sh PName.COMPILE_STATUS
  let w := (gl.getShaderInfoLog (tr ++ [GLEvent.getShaderiv sh PName.COMPILE_STATUS a]) sh).map
    (List.take 511)
  (sh, a, w)

/-- The frame after a compile block, given the answers. -/
def afterCompile (stage : Stage) (sh : Nat) (src : Text) (rd : List Diag)
    (a : Option Int) (w : Option Text) (fr : Frame) : Frame :=
  { calls := fr.calls ++ [GLEvent.createShader stage sh, GLEvent.shaderSource sh src,
      GLEvent.compileShader sh, GLEvent.getShaderiv sh PName.COMPILE_STATUS a]
      ++ (if a.getD fr.success = 0 then [GLEvent.getShaderInfoLog sh 512 w] else [])
    cerr := fr.cerr ++ rd
      ++ (if a.getD fr.success = 0 then [Diag.compilationFailed stage (w.getD fr.infoLog)]
          else [])
    success := a.getD fr.success
    infoLog := if a.getD fr.success = 0 then w.getD fr.infoLog else fr.infoLog }

/-- The answers of the driver during one link check entered with a frame. -/
def linkCheckAnswers (gl : Driver) (sh p : Nat) (fr : Frame) : Option Int × Option Text :=
  let b := gl.getProgramiv fr.calls sh PName.LINK_STATUS
  let m := (gl.getProgramInfoLog (fr.calls ++ [GLEvent.getProgramiv sh PName.LINK_STATUS b]) p).map
    (List.take 511)
  (b, m)

/-- The frame after one link check, given the answers. -/
def afterLinkCheck (stage : Stage) (sh p : Nat) (b : Option Int) (m : Option Text)
    (fr : Frame) : Frame :=
  { calls := fr.calls ++ [GLEvent.getProgramiv sh PName.LINK_STATUS b]
      ++ (if b.getD fr.success = 0 then [GLEvent.getProgramInfoLog p 512 m] else [])
    cerr := fr.cerr
      ++ (if b.getD fr.success = 0 then [Diag.linkingFailed stage (m.getD fr.infoLog)] else [])
    success := b.getD fr.success
    infoLog := if b.getD fr.success = 0 then m.getD fr.infoLog else fr.infoLog }

/-- Every answer the driver gives during one construction.  The geometry
fields are not used by a construction without a geometry stage. -/
structure Answers where
  vertexShader : Nat
  vertexStatus : Option Int
  vertexLog : Option Text
  fragmentShader : Nat
  fragmentStatus : Option Int
  fragmentLog : Option Text
  geometryShader : Nat
  geometryStatus : Option Int
  geometryLog : Option Text
  shaderProgram : Nat
  vertexLink : Option Int
  vertexLinkLog : Option Text
  fragmentLink : Option Int
  fragmentLinkLog : Option Text
  geometryLink : Option Int
  geometryLinkLog : Option Text

/-- The frame before the first statement of the constructor. -/
def Env.frame0 (env : Env) : Frame :=
  { calls := [], cerr := [], success := env.success0, infoLog := env.infoLog0 }

/-- The frame after the compile blocks, given the answers. -/
def replayCompiled (env : Env) (f_path v_path g_path : Text) (an : Answers) : Frame :=
  let fr := afterCompile Stage.VERTEX an.vertexShader (sourceOf env.fs v_path)
    (readDiags env.fs (c_str v_path)) an.vertexStatus an.vertexLog env.frame0
  let fr := afterCompile Stage.FRAGMENT an.fragmentShader (sourceOf env.fs f_path)
    (readDiags env.fs (c_str f_path)) an.fragmentStatus an.fragmentLog fr
  if g_path = [] then fr
  else afterCompile Stage.GEOMETRY an.geometryShader (sourceOf env.fs g_path)
    (readDiags env.fs (c_str g_path)) an.geometryStatus an.geometryLog fr

/-- The frame after the link block, given the answers. -/
def replayLinked (env : Env) (f_path v_path g_path : Text) (an : Answers) : Frame :=
  let fr := replayCompiled env f_path v_path g_path an
  { fr with
    calls := fr.calls ++ [GLEvent.createProgram an.shaderProgram,
        GLEvent.attachShader an.shaderProgram an.vertexShader,
        GLEvent.attachShader an.shaderProgram an.fragmentShader]
      ++ (if g_path = [] then []
          else [GLEvent.attachShader an.shaderProgram an.geometryShader])
      ++ [GLEvent.linkProgram an.shaderProgram] }

/-- The frame after the link checks, given the answers. -/
def replayChecked (env : Env) (f_path v_path g_path : Text) (an : Answers) : Frame :=
  let fr := replayLinked env f_path v_path g_path an
  let fr := afterLinkCheck Stage.VERTEX an.vertexShader an.shaderProgram
    an.vertexLink an.vertexLinkLog fr
  let fr := afterLinkCheck Stage.FRAGMENT an.fragmentShader an.shaderProgram
    an.fragmentLink an.fragmentLinkLog fr
  if g_path = [] then fr
  else afterLinkCheck Stage.GEOMETRY an.geometryShader an.shaderProgram
    an.geometryLink an.geometryLinkLog fr

/-- The construction that returns, given the answers. -/
def replay (env : Env) (f_path v_path g_path : Text) (an : Answers) : Constructed :=
  let fr := replayChecked env f_path v_path g_path an
  { id := an.shaderProgram
    calls := fr.calls ++ [GLEvent.deleteShader an.vertexShader,
        GLEvent.deleteShader an.fragmentShader]
      ++ (if g_path = [] then [] else [GLEvent.deleteShader an.geometryShader])
    cerr := fr.cerr }

/-- The frame in which the constructor stays when the read of the vertex file
does not return. -/
def hungVertex (env : Env) (an : Answers) : Frame :=
  { env.frame0 with calls := [GLEvent.createShader Stage.VERTEX an.vertexShader] }

/-- The frame in which the constructor stays when the read of the fragment
file does not return. -/
def hungFragment (env : Env) (v_path : Text) (an : Answers) : Frame :=
  let fr := afterCompile Stage.VERTEX an.vertexShader (sourceOf env.fs v_path)
    (readDiags env.fs (c_str v_path)) an.vertexStatus an.vertexLog env.frame0
  { fr with calls := fr.calls ++ [GLEvent.createShader Stage.FRAGMENT an.fragmentShader] }

/-- The frame in which the constructor stays when the read of the geometry
file does not return. -/
def hungGeometry (env : Env) (f_path v_path : Text) (an : Answers) : Frame :=
  let fr := replayCompiled env f_path v_path [] an
  { fr with calls := fr.calls ++ [GLEvent.createShader Stage.GEOMETRY an.geometryShader] }

/-- Every construction, given the answers: it stays in the first read that
does not return, and returns when there is none. -/
def replayOutcome (env : Env) (f_path v_path g_path : Text) (an : Answers) : Outcome :=
  if readHangs env.fs (c_str v_path) then Except.error (hungVertex env an)
  else if readHangs env.fs (c_str f_path) then Except.error (hungFragment env v_path an)
  else if g_path ≠ [] ∧ readHangs env.fs (c_str g_path) then
    Except.error (hungGeometry env f_path v_path an)
  else Except.ok (replay env f_path v_path g_path an)

/-- Whether the file at the path cannot be opened or is read to its end. -/
def readsToEnd (fs : Text → Option File) (path : Text) : Bool :=
  !readHangs fs (c_str path)

/-- Whether each file a construction reads cannot be opened or is read to its
end. -/
def Env.filesReadToEnd (env : Env) (f_path v_path g_path : Text) : Bool :=
  readsToEnd env.fs v_path && readsToEnd env.fs f_path
    && (decide (g_path = []) || readsToEnd env.fs g_path)

/-- The local `success` after the compile status query of the vertex shader. -/
def successV (env : Env) (an : Answers) : Int :=
  an.vertexStatus.getD env.success0

/-- The local `success` after the compile status query of the fragment shader. -/
def successF (env : Env) (an : Answers) : Int :=
  an.fragmentStatus.getD (successV env an)

/-- The local `success` when the program is created. -/
def successG (env : Env) (g_path : Text) (an : Answers) : Int :=
  if g_path = [] then successF env an else an.geometryStatus.getD (successF env an)

/-- The local `success` after the first link status query. -/
def successLV (env : Env) (g_path : Text) (an : Answers) : Int :=
  an.vertexLink.getD (successG env g_path an)

/-- The local `success` after the second link status query. -/
def successLF (env : Env) (g_path : Text) (an : Answers) : Int :=
  an.fragmentLink.getD (successLV env g_path an)

/-- The local `success` after the third link status query. -/
def successLG (env : Env) (g_path : Text) (an : Answers) : Int :=
  an.geometryLink.getD (successLF env g_path an)

/-- The buffer `infoLog` after the compile check of the vertex shader. -/
def infoLogV (env : Env) (an : Answers) : Text :=
  if successV env an = 0 then an.vertexLog.getD env.infoLog0 else env.infoLog0

/-- The buffer `infoLog` after the compile check of the fragment shader. -/
def infoLogF (env : Env) (an : Answers) : Text :=
  if successF env an = 0 then an.fragmentLog.getD (infoLogV env an) else infoLogV env an

/-- The buffer `infoLog` when the program is created. -/
def infoLogG (env : Env) (g_path : Text) (an : Answers) : Text :=
  if g_path = [] then infoLogF env an
  else if successG env g_path an = 0 then an.geometryLog.getD (infoLogF env an)
  else infoLogF env an

/-- The buffer `infoLog` after the first link check. -/
def infoLogLV (env : Env) (g_path : Text) (an : Answers) : Text :=
  if successLV env g_path an = 0 then an.vertexLinkLog.getD (infoLogG env g_path an)
  else infoLogG env g_path an

/-- The buffer `infoLog` after the second link check. -/
def infoLogLF (env : Env) (g_path : Text) (an : Answers) : Text :=
  if successLF env g_path an = 0 then an.fragmentLinkLog.getD (infoLogLV env g_path an)
  else infoLogLV env g_path an

/-! ## Reading a transcript -/

/-- Whether the event is an info log query. -/
def isFetch : GLEvent → Bool
  | GLEvent.getShaderInfoLog _ _ _ => true
  | GLEvent.getProgramInfoLog _ _ _ => true
  | _ => false

/-- The calls of a transcript other than the info log queries. -/
def operations (tr : List GLEvent) : List GLEvent :=
  tr.filter (fun e => !isFetch e)

/-- The info log queries of a transcript. -/
def fetches (tr : List GLEvent) : List GLEvent :=
  tr.filter isFetch

/-- The event without what the query wrote. -/
def GLEvent.request : GLEvent → GLEvent
  | GLEvent.getShaderiv shader pname _ => GLEvent.getShaderiv shader pname none
  | GLEvent.getShaderInfoLog shader bufSize _ => GLEvent.getShaderInfoLog shader bufSize none
  | GLEvent.getProgramiv program pname _ => GLEvent.getProgramiv program pname none
  | GLEvent.getProgramInfoLog program bufSize _ =>
    GLEvent.getProgramInfoLog program bufSize none
  | e => e

/-- Whether a diagnostic is tagged with the stage. -/
def Diag.taggedWith (stage : Stage) (d : Diag) : Bool :=
  d.stage == some stage

/-- The names returned by `glCreateShader`, in the order of the calls. -/
def createdShaders (tr : List GLEvent) : List Nat :=
  tr.filterMap (fun e => match e with
    | GLEvent.createShader _ ret => some ret
    | _ => none)

/-- The names passed to `glDeleteShader`, in the order of the calls. -/
def deletedShaders (tr : List GLEvent) : List Nat :=
  tr.filterMap (fun e => match e with
    | GLEvent.deleteShader shader => some shader
    | _ => none)

/-- The names passed to `glGetProgramiv`, in the order of the calls. -/
def linkQueried (tr : List GLEvent) : List Nat :=
  tr.filterMap (fun e => match e with
    | GLEvent.getProgramiv program _ _ => some program
    | _ => none)

/-- Whether the event is a `glLinkProgram` or a `glDeleteShader`. -/
def isLinkOrDelete : GLEvent → Bool
  | GLEvent.linkProgram _ => true
  | GLEvent.deleteShader _ => true
  | _ => false

/-- Whether the event is a `glDeleteProgram`. -/
def isDeleteProgram : GLEvent → Bool
  | GLEvent.deleteProgram _ => true
  | _ => false

/-- The calls other than info log queries that a construction is expected to
make, as a function of whether `g_path` is empty, of the names the driver
returned, of the three source texts and of what the six status queries
wrote. -/
def expectedOperations (gEmpty : Bool) (vs fs gs p : Nat) (vSrc fSrc gSrc : Text)
    (aV aF aG bV bF bG : Option Int) : List GLEvent :=
  [GLEvent.createShader Stage.VERTEX vs, GLEvent.shaderSource vs vSrc,
    GLEvent.compileShader vs, GLEvent.getShaderiv vs PName.COMPILE_STATUS aV,
    GLEvent.createShader Stage.FRAGMENT fs, GLEvent.shaderSource fs fSrc,
    GLEvent.compileShader fs, GLEvent.getShaderiv fs PName.COMPILE_STATUS aF]
  ++ (if gEmpty then []
      else [GLEvent.createShader Stage.GEOMETRY gs, GLEvent.shaderSource gs gSrc,
        GLEvent.compileShader gs, GLEvent.getShaderiv gs PName.COMPILE_STATUS aG])
  ++ [GLEvent.createProgram p, GLEvent.attachShader p vs, GLEvent.attachShader p fs]
  ++ (if gEmpty then [] else [GLEvent.attachShader p gs])
  ++ [GLEvent.linkProgram p, GLEvent.getProgramiv vs PName.LINK_STATUS bV,
    GLEvent.getProgramiv fs PName.LINK_STATUS bF]
  ++ (if gEmpty then [] else [GLEvent.getProgramiv gs PName.LINK_STATUS bG])
  ++ [GLEvent.deleteShader vs, GLEvent.deleteShader fs]
  ++ (if gEmpty then [] else [GLEvent.deleteShader gs])

/-- Whether the event is not a compile status query, or is one that the driver
answered with a status other than zero. -/
def compiledOk : GLEvent → Bool
  | GLEvent.getShaderiv _ _ (some status) => status != 0
  | GLEvent.getShaderiv _ _ none => false
  | _ => true

/-- Whether the event is not a link status query, or is one that did not read
failure: the driver answered with a status other than zero, or left the output
alone because the name is not that of a program. -/
def linkedOk : GLEvent → Bool
  | GLEvent.getProgramiv _ _ (some status) => status != 0
  | _ => true

/-- Whether the diagnostic is a compilation failure tagged with the stage. -/
def Diag.isCompilationFailed (stage : Stage) : Diag → Bool
  | Diag.compilationFailed tag _ => tag == stage
  | _ => false

/-- Whether the diagnostic is the one of `readFile`. -/
def Diag.isCouldNotRead : Diag → Bool
  | Diag.couldNotRead _ => true
  | _ => false

/-- Whether the event is not a query on a shader, or is one that the driver
answered. -/
def answered : GLEvent → Bool
  | GLEvent.getShaderiv _ _ none => false
  | GLEvent.getShaderInfoLog _ _ none => false
  | _ => true

/-- The entry points of the driver. -/
inductive CallName where
  | glCreateShader
  | glShaderSource
  | glCompileShader
  | glGetShaderiv
  | glGetShaderInfoLog
  | glCreateProgram
  | glAttachShader
  | glLinkProgram
  | glGetProgramiv
  | glGetProgramInfoLog
  | glDeleteShader
  | glDeleteProgram
  deriving DecidableEq, Repr

/-- The entry point an event is a call of. -/
def GLEvent.name : GLEvent → CallName
  | GLEvent.createShader _ _ => CallName.glCreateShader
  | GLEvent.shaderSource _ _ => CallName.glShaderSource
  | GLEvent.compileShader _ => CallName.glCompileShader
  | GLEvent.getShaderiv _ _ _ => CallName.glGetShaderiv
  | GLEvent.getShaderInfoLog _ _ _ => CallName.glGetShaderInfoLog
  | GLEvent.createProgram _ => CallName.glCreateProgram
  | GLEvent.attachShader _ _ => CallName.glAttachShader
  | GLEvent.linkProgram _ => CallName.glLinkProgram
  | GLEvent.getProgramiv _ _ _ => CallName.glGetProgramiv
  | GLEvent.getProgramInfoLog _ _ _ => CallName.glGetProgramInfoLog
  | GLEvent.deleteShader _ => CallName.glDeleteShader
  | GLEvent.deleteProgram _ => CallName.glDeleteProgram

/-- A file that consists of the given lines, each ended by a line feed. -/
def joinLines : List Text → Text
  | [] => []
  | line :: lines => line ++ [LF] ++ joinLines lines

/-- The object a construction returns, if it returns. -/
def returned : Outcome → Option Constructed
  | Except.ok out => some out
  | Except.error _ => none

/-- The entry points called, apart from info log queries, as a function of
which of the three reads does not return and of whether `g_path` is empty. -/
def expectedNames (hangsV hangsF hangsG gEmpty : Bool) : List CallName :=
  if hangsV then [CallName.glCreateShader]
  else if hangsF then
    [CallName.glCreateShader, CallName.glShaderSource, CallName.glCompileShader,
      CallName.glGetShaderiv, CallName.glCreateShader]
  else if !gEmpty && hangsG then
    [CallName.glCreateShader, CallName.glShaderSource, CallName.glCompileShader,
      CallName.glGetShaderiv, CallName.glCreateShader, CallName.glShaderSource,
      CallName.glCompileShader, CallName.glGetShaderiv, CallName.glCreateShader]
  else
    (expectedOperations gEmpty 0 0 0 0 [] [] [] none none none none none none).map GLEvent.name

/-! ## Sample inputs -/

/-- A file system with three shader files and the directory `shaders`. -/
def sampleFiles (path : Text) : Option File :=
  if path = "shader.vert".toList then
    some (File.regular "#version 330 core\nvoid main();\n".toList)
  else if path = "shader.frag".toList then
    some (File.regular "#version 330 core\nout vec4 c;\n".toList)
  else if path = "shader.geom".toList then some (File.regular "#version 330 core\n".toList)
  else if path = "shaders".toList then some File.directory
  else none

/-- A toolchain that accepts every stage and links. -/
def okToolchain : Toolchain :=
  { supports := fun _ => true
    compiles := fun _ => true
    compileLog := fun _ => []
    links := true
    linkLog := [] }

/-- The toolchain `okToolchain` with a compiler that rejects the vertex shader:
only the compile status of that stage differs. -/
def vertexRejected : Toolchain :=
  { okToolchain with compiles := fun stage => stage != Stage.VERTEX }

/-- A toolchain whose compiler rejects the fragment shader. -/
def fragmentRejected : Toolchain :=
  { supports := fun _ => true
    compiles := fun stage => stage != Stage.FRAGMENT
    compileLog := fun _ => "0:2: unexpected token".toList
    links := true
    linkLog := [] }

/-- A toolchain that compiles every stage and fails to link. -/
def linkRefused : Toolchain :=
  { supports := fun _ => true
    compiles := fun _ => true
    compileLog := fun _ => []
    links := false
    linkLog := "error: output c not written".toList }

/-- The toolchain `fragmentRejected` in a context without geometry shaders. -/
def noGeometrySupport : Toolchain :=
  { fragmentRejected with supports := fun stage => stage != Stage.GEOMETRY }

/-- An environment over the sample files and the reference driver. -/
def sampleEnv (tc : Toolchain) : Env :=
  { fs := sampleFiles
    gl := refDriver tc
    success0 := 0
    infoLog0 := []
    geometryShader0 := 0 }

/-- The construction over the sample vertex and fragment files with the
toolchain that accepts everything. -/
def validOutcome : Constructed :=
  { id := 3
    calls :=
      [GLEvent.createShader Stage.VERTEX 1,
        GLEvent.shaderSource 1 "#version 330 core\nvoid main();\n\n".toList,
        GLEvent.compileShader 1,
        GLEvent.getShaderiv 1 PName.COMPILE_STATUS (some 1),
        GLEvent.createShader Stage.FRAGMENT 2,
        GLEvent.shaderSource 2 "#version 330 core\nout vec4 c;\n\n".toList,
        GLEvent.compileShader 2,
        GLEvent.getShaderiv 2 PName.COMPILE_STATUS (some 1),
        GLEvent.createProgram 3,
        GLEvent.attachShader 3 1,
        GLEvent.attachShader 3 2,
        GLEvent.linkProgram 3,
        GLEvent.getProgramiv 1 PName.LINK_STATUS none,
        GLEvent.getProgramiv 2 PName.LINK_STATUS none,
        GLEvent.deleteShader 1,
        GLEvent.deleteShader 2]
    cerr := [] }

/-- The construction over the sample vertex and fragment files with the
toolchain that rejects the fragment shader. -/
def fragmentRejectedOutcome : Constructed :=
  { id := 3
    calls :=
      [GLEvent.createShader Stage.VERTEX 1,
        GLEvent.shaderSource 1 "#version 330 core\nvoid main();\n\n".toList,
        GLEvent.compileShader 1,
        GLEvent.getShaderiv 1 PName.COMPILE_STATUS (some 1),
        GLEvent.createShader Stage.FRAGMENT 2,
        GLEvent.shaderSource 2 "#version 330 core\nout vec4 c;\n\n".toList,
        GLEvent.compileShader 2,
        GLEvent.getShaderiv 2 PName.COMPILE_STATUS (some 0),
        GLEvent.getShaderInfoLog 2 512 (some "0:2: unexpected token".toList),
        GLEvent.createProgram 3,
        GLEvent.attachShader 3 1,
        GLEvent.attachShader 3 2,
        GLEvent.linkProgram 3,
        GLEvent.getProgramiv 1 PName.LINK_STATUS none,
        GLEvent.getProgramInfoLog 3 512 (some []),
        GLEvent.getProgramiv 2 PName.LINK_STATUS none,
        GLEvent.getProgramInfoLog 3 512 (some []),
        GLEvent.deleteShader 1,
        GLEvent.deleteShader 2]
    cerr :=
      [Diag.compilationFailed Stage.FRAGMENT "0:2: unexpected token".toList,
        Diag.linkingFailed Stage.VERTEX [],
        Diag.linkingFailed Stage.FRAGMENT []] }

/-- The construction over the three sample shader files with the toolchain
that rejects the fragment shader, in a context without geometry shaders. -/
def noGeometryOutcome : Constructed :=
  { id := 3
    calls :=
      [GLEvent.createShader Stage.VERTEX 1,
        GLEvent.shaderSource 1 "#version 330 core\nvoid main();\n\n".toList,
        GLEvent.compileShader 1,
        GLEvent.getShaderiv 1 PName.COMPILE_STATUS (some 1),
        GLEvent.createShader Stage.FRAGMENT 2,
        GLEvent.shaderSource 2 "#version 330 core\nout vec4 c;\n\n".toList,
        GLEvent.compileShader 2,
        GLEvent.getShaderiv 2 PName.COMPILE_STATUS (some 0),
        GLEvent.getShaderInfoLog 2 512 (some "0:2: unexpected token".toList),
        GLEvent.createShader Stage.GEOMETRY 0,
        GLEvent.shaderSource 0 "#version 330 core\n\n".toList,
        GLEvent.compileShader 0,
        GLEvent.getShaderiv 0 PName.COMPILE_STATUS none,
        GLEvent.getShaderInfoLog 0 512 none,
        GLEvent.createProgram 3,
        GLEvent.attachShader 3 1,
        GLEvent.attachShader 3 2,
        GLEvent.attachShader 3 0,
        GLEvent.linkProgram 3,
        GLEvent.getProgramiv 1 PName.LINK_STATUS none,
        GLEvent.getProgramInfoLog 3 512 (some []),
        GLEvent.getProgramiv 2 PName.LINK_STATUS none,
        GLEvent.getProgramInfoLog 3 512 (some []),
        GLEvent.getProgramiv 0 PName.LINK_STATUS none,
        GLEvent.getProgramInfoLog 3 512 (some []),
        GLEvent.deleteShader 1,
        GLEvent.deleteShader 2,
        GLEvent.deleteShader 0]
    cerr :=
      [Diag.compilationFailed Stage.FRAGMENT "0:2: unexpected token".toList,
        Diag.compilationFailed Stage.GEOMETRY "0:2: unexpected token".toList,
        Diag.linkingFailed Stage.VERTEX [],
        Diag.linkingFailed Stage.FRAGMENT [],
        Diag.linkingFailed Stage.GEOMETRY []] }

/-- The logs that reached the buffer hold at most 511 characters. -/
def Answers.logsFit (an : Answers) : Prop :=
  ∀ w ∈ [an.vertexLog, an.fragmentLog, an.geometryLog, an.vertexLinkLog, an.fragmentLinkLog,
    an.geometryLinkLog], ∀ l, w = some l → l.length ≤ 511

/-! ## Lemmas -/

theorem toGLuint_toInt (u : Nat) : toGLuint (toInt u) = u % UINT_RANGE := by
  unfold toGLuint toInt UINT_RANGE
  split <;> omega

/-- A `GLuint` survives the conversion to `int` and back. -/
theorem toGLuint_toInt_mod (u : Nat) :
    toGLuint (toInt (u % UINT_RANGE)) = u % UINT_RANGE := by
  rw [toGLuint_toInt, Nat.mod_mod]

/-- When a line feed is found, the text is the line, the line feed and the rest. -/
theorem extractLine_some (c l rest : Text) (h : extractLine c = (l, some rest)) :
    c = l ++ LF :: rest := by
  induction c generalizing l with
  | nil => simp [extractLine] at h
  | cons a cs ih =>
    unfold extractLine at h
    split at h
    · simp only [Prod.mk.injEq, Option.some.injEq] at h
      obtain ⟨h1, h2⟩ := h
      subst h1 h2
      simp [*]
    · simp only [Prod.mk.injEq] at h
      obtain ⟨h1, h2⟩ := h
      subst h1
      have := ih (extractLine cs).1 (by rw [← h2])
      simp [← this]

/-- When no line feed is found, the line is the whole text. -/
theorem extractLine_none (c l : Text) (h : extractLine c = (l, none)) : c = l := by
  induction c generalizing l with
  | nil => simp [extractLine] at h; exact h.symm
  | cons a cs ih =>
    unfold extractLine at h
    split at h
    · simp at h
    · simp only [Prod.mk.injEq] at h
      obtain ⟨h1, h2⟩ := h
      subst h1
      have := ih (extractLine cs).1 (by rw [← h2])
      simp [← this]

/-- The read loop on a freshly opened regular file ends within one iteration per
character and one more, with the content and one more line feed appended. -/
theorem readLoop_regular (fuel : Nat) (c line acc : Text) (h : c.length < fuel) :
    readLoop fuel (IfStream.opened (File.regular c)) line acc = some (acc ++ c ++ [LF]) := by
  induction fuel generalizing c line acc with
  | zero => omega
  | succ n ih =>
    rcases hx : extractLine c with ⟨l, _ | rest⟩
    · have hc := extractLine_none c l hx
      subst hc
      cases n <;>
        simp [readLoop, IfStream.eof, IfStream.opened, IfStream.good, File.regular, getline, hx]
    · have hc := extractLine_some c l rest hx
      subst hc
      have hlen : rest.length < n := by simp at h; omega
      have := ih rest l (acc ++ (l ++ [LF])) hlen
      simp [readLoop, IfStream.eof, IfStream.opened, IfStream.good, File.regular, getline, hx]
        at this ⊢
      exact this

/-- A stream that is not good and has not reached the end of the file stays so:
the read loop on it does not end, whatever the number of iterations. -/
theorem readLoop_stuck (fuel : Nat) (s : IfStream) (line acc : Text)
    (heof : s.eofbit = false) (hbad : s.good = false) :
    readLoop fuel s line acc = none := by
  induction fuel generalizing s line acc with
  | zero => simp [readLoop, IfStream.eof, heof]
  | succ n ih =>
    simp only [readLoop, IfStream.eof, heof, Bool.false_eq_true, if_false, getline, hbad,
      Bool.not_false, if_true]
    exact ih _ _ _ rfl (by simp [IfStream.good])

/-- The read loop on a freshly opened file whose read fails does not end,
whatever the number of iterations. -/
theorem readLoop_readError (fuel : Nat) (c line acc : Text) :
    readLoop fuel (IfStream.opened { content := c, readError := true }) line acc = none := by
  induction fuel generalizing c line acc with
  | zero => simp [readLoop, IfStream.eof, IfStream.opened]
  | succ n ih =>
    rcases hx : extractLine c with ⟨l, _ | rest⟩
    · simp only [readLoop, IfStream.eof, IfStream.opened, IfStream.good, getline, hx,
        Bool.false_eq_true, if_false, Bool.or_self, Bool.not_false, Bool.not_true, if_true]
      exact readLoop_stuck n _ _ _ rfl (by simp [IfStream.good])
    · have := ih rest l (acc ++ (l ++ [LF]))
      simp only [readLoop, IfStream.eof, IfStream.opened, IfStream.good, getline, hx,
        Bool.false_eq_true, if_false, Bool.or_self, Bool.not_false, Bool.not_true] at this ⊢
      exact this

/-- The member `readFile` does not return on a file whose read fails, and
otherwise returns the closed forms `readText` and `readDiags`. -/
theorem readFile_eq (fs : Text → Option File) (filePath : Text) (cerr : List Diag) :
    readFile fs filePath cerr =
      if readHangs fs filePath then none
      else some (readText fs filePath, cerr ++ readDiags fs filePath) := by
  unfold readFile readText readDiags readHangs
  cases h : fs filePath with
  | none => simp
  | some file =>
    obtain ⟨c, b⟩ := file
    cases b
    · simpa using readLoop_regular (c.length + 1) c [] [] (Nat.lt_succ_self _)
    · simp [readLoop_readError]

/-- A call of `readFile` inside the constructor, in closed form. -/
theorem readFileIn_eq (fs : Text → Option File) (filePath : Text) (fr : Frame) :
    readFileIn fs filePath fr =
      if readHangs fs filePath then Except.error fr
      else Except.ok (readText fs filePath,
        { fr with cerr := fr.cerr ++ readDiags fs filePath }) := by
  unfold readFileIn
  rw [readFile_eq]
  by_cases hh : readHangs fs filePath = true <;> simp [hh]

/-- The vertex block in terms of the answers of the driver. -/
theorem compileVertex_eq (env : Env) (v_path : Text) (fr : Frame) :
    compileVertex env v_path fr =
      if readHangs env.fs (c_str v_path) then
        Except.error { fr with calls := fr.calls ++ [GLEvent.createShader Stage.VERTEX
          (compileAnswers env.gl Stage.VERTEX (sourceOf env.fs v_path) fr).1] }
      else
        Except.ok (toInt (compileAnswers env.gl Stage.VERTEX (sourceOf env.fs v_path) fr).1,
          afterCompile Stage.VERTEX
            (compileAnswers env.gl Stage.VERTEX (sourceOf env.fs v_path) fr).1
            (sourceOf env.fs v_path) (readDiags env.fs (c_str v_path))
            (compileAnswers env.gl Stage.VERTEX (sourceOf env.fs v_path) fr).2.1
            (compileAnswers env.gl Stage.VERTEX (sourceOf env.fs v_path) fr).2.2 fr) := by
  simp only [compileVertex, readFileIn_eq, glCreateShader, glShaderSource, glCompileShader,
    glGetShaderiv, glGetShaderInfoLog, cerrWrite, toGLuint_toInt_mod, compileAnswers,
    afterCompile, sourceOf]
  by_cases hh : readHangs env.fs (c_str v_path) = true
  · simp [hh, bind, Except.bind]
  · simp only [hh, Bool.false_eq_true, if_false, bind, Except.bind, pure, Except.pure]
    split <;> simp_all

/-- The fragment block in terms of the answers of the driver. -/
theorem compileFragment_eq (env : Env) (f_path : Text) (fr : Frame) :
    compileFragment env f_path fr =
      if readHangs env.fs (c_str f_path) then
        Except.error { fr with calls := fr.calls ++ [GLEvent.createShader Stage.FRAGMENT
          (compileAnswers env.gl Stage.FRAGMENT (sourceOf env.fs f_path) fr).1] }
      else
        Except.ok (toInt (compileAnswers env.gl Stage.FRAGMENT (sourceOf env.fs f_path) fr).1,
          afterCompile Stage.FRAGMENT
            (compileAnswers env.gl Stage.FRAGMENT (sourceOf env.fs f_path) fr).1
            (sourceOf env.fs f_path) (readDiags env.fs (c_str f_path))
            (compileAnswers env.gl Stage.FRAGMENT (sourceOf env.fs f_path) fr).2.1
            (compileAnswers env.gl Stage.FRAGMENT (sourceOf env.fs f_path) fr).2.2 fr) := by
  simp only [compileFragment, readFileIn_eq, glCreateShader, glShaderSource, glCompileShader,
    glGetShaderiv, glGetShaderInfoLog, cerrWrite, toGLuint_toInt_mod, compileAnswers,
    afterCompile, sourceOf]
  by_cases hh : readHangs env.fs (c_str f_path) = true
  · simp [hh, bind, Except.bind]
  · simp only [hh, Bool.false_eq_true, if_false, bind, Except.bind, pure, Except.pure]
    split <;> simp_all

/-- The geometry block in terms of the answers of the driver. -/
theorem compileGeometry_eq (env : Env) (g_path : Text) (fr : Frame) :
    compileGeometry env g_path fr =
      if readHangs env.fs (c_str g_path) then
        Except.error { fr with calls := fr.calls ++ [GLEvent.createShader Stage.GEOMETRY
          (compileAnswers env.gl Stage.GEOMETRY (sourceOf env.fs g_path) fr).1] }
      else
        Except.ok (toInt (compileAnswers env.gl Stage.GEOMETRY (sourceOf env.fs g_path) fr).1,
          afterCompile Stage.GEOMETRY
            (compileAnswers env.gl Stage.GEOMETRY (sourceOf env.fs g_path) fr).1
            (sourceOf env.fs g_path) (readDiags env.fs (c_str g_path))
            (compileAnswers env.gl Stage.GEOMETRY (sourceOf env.fs g_path) fr).2.1
            (compileAnswers env.gl Stage.GEOMETRY (sourceOf env.fs g_path) fr).2.2 fr) := by
  simp only [compileGeometry, readFileIn_eq, glCreateShader, glShaderSource, glCompileShader,
    glGetShaderiv, glGetShaderInfoLog, cerrWrite, toGLuint_toInt_mod, compileAnswers,
    afterCompile, sourceOf]
  by_cases hh : readHangs env.fs (c_str g_path) = true
  · simp [hh, bind, Except.bind]
  · simp only [hh, Bool.false_eq_true, if_false, bind, Except.bind, pure, Except.pure]
    split <;> simp_all

/-- The name of a shader is a `GLuint` and its log fits the buffer. -/
theorem compileAnswers_spec (gl : Driver) (stage : Stage) (src : Text) (fr : Frame) :
    (compileAnswers gl stage src fr).1 < UINT_RANGE ∧
      ∀ l, (compileAnswers gl stage src fr).2.2 = some l → l.length ≤ 511 := by
  refine ⟨Nat.mod_lt _ (by decide), ?_⟩
  intro l hl
  simp only [compileAnswers, Option.map_eq_some'] at hl
  obtain ⟨full, -, rfl⟩ := hl
  simp [List.length_take]

/-- The log of the program fits the buffer. -/
theorem linkCheckAnswers_spec (gl : Driver) (sh p : Nat) (fr : Frame) :
    ∀ l, (linkCheckAnswers gl sh p fr).2 = some l → l.length ≤ 511 := by
  intro l hl
  simp only [linkCheckAnswers, Option.map_eq_some'] at hl
  obtain ⟨full, -, rfl⟩ := hl
  simp [List.length_take]

/-- A name below `UINT_RANGE` survives the conversion to `int` and back. -/
theorem toGLuint_toInt_of_lt (u : Nat) (h : u < UINT_RANGE) : toGLuint (toInt u) = u := by
  rw [toGLuint_toInt, Nat.mod_eq_of_lt h]

/-- The tests `g_path != ""` and `!g_path.empty()` agree on every text. -/
theorem isEmpty_tests_agree (g_path : Text) :
    (g_path != []) = !(g_path.length == 0) := by
  cases g_path <;> rfl

/-- The link block written out. -/
theorem linkShaders_eq (env : Env) (g_path : Text) (vs fs gs : Nat) (geometryShader0 : Int)
    (hvs : vs < UINT_RANGE) (hfs : fs < UINT_RANGE) (hgs : gs < UINT_RANGE) (fr : Frame) :
    linkShaders env g_path (toInt vs) (toInt fs)
        (if g_path = [] then geometryShader0 else toInt gs) fr =
      (toInt (env.gl.createProgram fr.calls % UINT_RANGE),
        { fr with
          calls := fr.calls ++ [GLEvent.createProgram (env.gl.createProgram fr.calls % UINT_RANGE),
              GLEvent.attachShader (env.gl.createProgram fr.calls % UINT_RANGE) vs,
              GLEvent.attachShader (env.gl.createProgram fr.calls % UINT_RANGE) fs]
            ++ (if g_path = [] then []
                else [GLEvent.attachShader (env.gl.createProgram fr.calls % UINT_RANGE) gs])
            ++ [GLEvent.linkProgram (env.gl.createProgram fr.calls % UINT_RANGE)] }) := by
  cases g_path <;>
    simp [linkShaders, glCreateProgram, glAttachShader, glLinkProgram, toGLuint_toInt_mod,
      toGLuint_toInt_of_lt, hvs, hfs, hgs]

/-- One link check in terms of the answers of the driver. -/
theorem linkCheck_eq (gl : Driver) (stage : Stage) (sh p : Nat) (fr : Frame) :
    (if (glGetProgramiv gl sh PName.LINK_STATUS fr).success = 0 then
      cerrWrite
        (Diag.linkingFailed stage
          (glGetProgramInfoLog gl p 512 (glGetProgramiv gl sh PName.LINK_STATUS fr)).infoLog)
        (glGetProgramInfoLog gl p 512 (glGetProgramiv gl sh PName.LINK_STATUS fr))
    else glGetProgramiv gl sh PName.LINK_STATUS fr) =
      afterLinkCheck stage sh p (linkCheckAnswers gl sh p fr).1 (linkCheckAnswers gl sh p fr).2
        fr := by
  simp only [glGetProgramiv, glGetProgramInfoLog, cerrWrite, linkCheckAnswers, afterLinkCheck]
  split <;> simp_all

/-- The link checks in terms of the answers of the driver. -/
theorem checkLinking_eq (env : Env) (g_path : Text) (vs fs gs p : Nat) (geometryShader0 : Int)
    (hvs : vs < UINT_RANGE) (hfs : fs < UINT_RANGE) (hgs : gs < UINT_RANGE)
    (hp : p < UINT_RANGE) (fr : Frame) :
    ∃ bV mV bF mF bG mG,
      (∀ w ∈ [mV, mF, mG], ∀ l, w = some l → l.length ≤ 511) ∧
      checkLinking env g_path (toInt vs) (toInt fs)
          (if g_path = [] then geometryShader0 else toInt gs) (toInt p) fr =
        (if g_path = [] then
          afterLinkCheck Stage.FRAGMENT fs p bF mF (afterLinkCheck Stage.VERTEX vs p bV mV fr)
        else
          afterLinkCheck Stage.GEOMETRY gs p bG mG
            (afterLinkCheck Stage.FRAGMENT fs p bF mF
              (afterLinkCheck Stage.VERTEX vs p bV mV fr))) := by
  refine ⟨(linkCheckAnswers env.gl vs p fr).1, (linkCheckAnswers env.gl vs p fr).2,
    (linkCheckAnswers env.gl fs p (afterLinkCheck Stage.VERTEX vs p
      (linkCheckAnswers env.gl vs p fr).1 (linkCheckAnswers env.gl vs p fr).2 fr)).1,
    (linkCheckAnswers env.gl fs p (afterLinkCheck Stage.VERTEX vs p
      (linkCheckAnswers env.gl vs p fr).1 (linkCheckAnswers env.gl vs p fr).2 fr)).2,
    (linkCheckAnswers env.gl gs p (afterLinkCheck Stage.FRAGMENT fs p
      (linkCheckAnswers env.gl fs p (afterLinkCheck Stage.VERTEX vs p
        (linkCheckAnswers env.gl vs p fr).1 (linkCheckAnswers env.gl vs p fr).2 fr)).1
      (linkCheckAnswers env.gl fs p (afterLinkCheck Stage.VERTEX vs p
        (linkCheckAnswers env.gl vs p fr).1 (linkCheckAnswers env.gl vs p fr).2 fr)).2
      (afterLinkCheck Stage.VERTEX vs p
        (linkCheckAnswers env.gl vs p fr).1 (linkCheckAnswers env.gl vs p fr).2 fr))).1,
    (linkCheckAnswers env.gl gs p (afterLinkCheck Stage.FRAGMENT fs p
      (linkCheckAnswers env.gl fs p (afterLinkCheck Stage.VERTEX vs p
        (linkCheckAnswers env.gl vs p fr).1 (linkCheckAnswers env.gl vs p fr).2 fr)).1
      (linkCheckAnswers env.gl fs p (afterLinkCheck Stage.VERTEX vs p
        (linkCheckAnswers env.gl vs p fr).1 (linkCheckAnswers env.gl vs p fr).2 fr)).2
      (afterLinkCheck Stage.VERTEX vs p
        (linkCheckAnswers env.gl vs p fr).1 (linkCheckAnswers env.gl vs p fr).2 fr))).2,
    ?_, ?_⟩
  · intro w hw l hl
    simp only [List.mem_cons, List.mem_singleton, List.not_mem_nil, or_false] at hw
    rcases hw with rfl | rfl | rfl <;> exact linkCheckAnswers_spec _ _ _ _ l hl
  · cases g_path <;>
      simp [checkLinking, toGLuint_toInt_of_lt, hvs, hfs, hgs, hp, linkCheck_eq]

/-- The deletions written out. -/
theorem deleteShaders_eq (g_path : Text) (vs fs gs : Nat) (geometryShader0 : Int)
    (hvs : vs < UINT_RANGE) (hfs : fs < UINT_RANGE) (hgs : gs < UINT_RANGE) (fr : Frame) :
    (deleteShaders g_path (toInt vs) (toInt fs)
        (if g_path = [] then geometryShader0 else toInt gs) fr).calls =
      fr.calls ++ [GLEvent.deleteShader vs, GLEvent.deleteShader fs]
        ++ (if g_path = [] then [] else [GLEvent.deleteShader gs]) ∧
    (deleteShaders g_path (toInt vs) (toInt fs)
        (if g_path = [] then geometryShader0 else toInt gs) fr).cerr = fr.cerr := by
  cases g_path <;>
    simp [deleteShaders, glDeleteShader, toGLuint_toInt_of_lt, hvs, hfs, hgs]

/-- Every construction is the replay of the answers the driver gave, names below
`UINT_RANGE` and logs cut to the buffer: it stays in the first read that does
not return, and returns when there is none. -/
theorem run_eq_replay (env : Env) (f_path v_path g_path : Text) :
    ∃ an : Answers, an.logsFit ∧
      ShaderProgram env f_path v_path g_path = replayOutcome env f_path v_path g_path an := by
  obtain ⟨a1, h1⟩ : ∃ a, a = compileAnswers env.gl Stage.VERTEX (sourceOf env.fs v_path)
    env.frame0 := ⟨_, rfl⟩
  obtain ⟨fr1, hfr1⟩ : ∃ fr, fr = afterCompile Stage.VERTEX a1.1 (sourceOf env.fs v_path)
    (readDiags env.fs (c_str v_path)) a1.2.1 a1.2.2 env.frame0 := ⟨_, rfl⟩
  obtain ⟨a2, h2⟩ : ∃ a, a = compileAnswers env.gl Stage.FRAGMENT (sourceOf env.fs f_path)
    fr1 := ⟨_, rfl⟩
  obtain ⟨fr2, hfr2⟩ : ∃ fr, fr = afterCompile Stage.FRAGMENT a2.1 (sourceOf env.fs f_path)
    (readDiags env.fs (c_str f_path)) a2.2.1 a2.2.2 fr1 := ⟨_, rfl⟩
  obtain ⟨a3, h3⟩ : ∃ a, a = compileAnswers env.gl Stage.GEOMETRY (sourceOf env.fs g_path)
    fr2 := ⟨_, rfl⟩
  obtain ⟨fr3, hfr3⟩ : ∃ fr, fr = (if g_path = [] then fr2 else
    afterCompile Stage.GEOMETRY a3.1 (sourceOf env.fs g_path)
      (readDiags env.fs (c_str g_path)) a3.2.1 a3.2.2 fr2) := ⟨_, rfl⟩
  have s1 := compileAnswers_spec env.gl Stage.VERTEX (sourceOf env.fs v_path) env.frame0
  have s2 := compileAnswers_spec env.gl Stage.FRAGMENT (sourceOf env.fs f_path) fr1
  have s3 := compileAnswers_spec env.gl Stage.GEOMETRY (sourceOf env.fs g_path) fr2
  rw [← h1] at s1
  rw [← h2] at s2
  rw [← h3] at s3
  obtain ⟨p, hp⟩ : ∃ p, p = env.gl.createProgram fr3.calls % UINT_RANGE := ⟨_, rfl⟩
  have hplt : p < UINT_RANGE := hp ▸ Nat.mod_lt _ (by decide)
  have hlink := linkShaders_eq env g_path a1.1 a2.1 a3.1 env.geometryShader0 s1.1 s2.1 s3.1 fr3
  rw [← hp] at hlink
  obtain ⟨bV, mV, bF, mF, bG, mG, hm, hcheck⟩ :=
    checkLinking_eq env g_path a1.1 a2.1 a3.1 p env.geometryShader0 s1.1 s2.1 s3.1 hplt
      (linkShaders env g_path (toInt a1.1) (toInt a2.1)
        (if g_path = [] then env.geometryShader0 else toInt a3.1) fr3).2
  have hdel := deleteShaders_eq g_path a1.1 a2.1 a3.1 env.geometryShader0 s1.1 s2.1 s3.1
  refine ⟨{ vertexShader := a1.1, vertexStatus := a1.2.1, vertexLog := a1.2.2,
            fragmentShader := a2.1, fragmentStatus := a2.2.1, fragmentLog := a2.2.2,
            geometryShader := a3.1, geometryStatus := a3.2.1, geometryLog := a3.2.2,
            shaderProgram := p, vertexLink := bV, vertexLinkLog := mV,
            fragmentLink := bF, fragmentLinkLog := mF,
            geometryLink := bG, geometryLinkLog := mG }, ?_, ?_⟩
  · intro w hw l hl
    simp only [List.mem_cons, List.mem_singleton, List.not_mem_nil, or_false] at hw
    rcases hw with rfl | rfl | rfl | rfl | rfl | rfl
    · exact s1.2 l hl
    · exact s2.2 l hl
    · exact s3.2 l hl
    · exact hm _ (by simp) l hl
    · exact hm _ (by simp) l hl
    · exact hm _ (by simp) l hl
  · have hv := compileVertex_eq env v_path env.frame0
    rw [← h1, ← hfr1] at hv
    have hf := compileFragment_eq env f_path fr1
    rw [← h2, ← hfr2] at hf
    have hgeo := compileGeometry_eq env g_path fr2
    rw [← h3] at hgeo
    have hid : toGLuint (toInt p) = p := toGLuint_toInt_of_lt p hplt
    simp only [Env.frame0] at hv
    rw [hlink] at hcheck
    by_cases hhv : readHangs env.fs (c_str v_path) = true
    · simp [ShaderProgram, replayOutcome, hungVertex, Env.frame0, hv, hhv, bind, Except.bind]
    simp only [hhv, Bool.false_eq_true, if_false] at hv
    by_cases hhf : readHangs env.fs (c_str f_path) = true
    · simp [ShaderProgram, replayOutcome, hungFragment, hv, hf, hhv, hhf, bind,
        Except.bind, ← hfr1]
    simp only [hhf, Bool.false_eq_true, if_false] at hf
    cases g_path with
    | nil =>
      simp only [if_true, List.append_nil, List.append_assoc, List.cons_append,
        List.nil_append] at hlink hcheck hdel hfr3
      subst hfr3
      simp [ShaderProgram, replayOutcome, hv, hf, hhv, hhf, hlink, hid, hcheck, hdel, replay,
        replayChecked, replayLinked, replayCompiled, ← hfr1, ← hfr2, bind, Except.bind, pure,
        Except.pure]
    | cons c cs =>
      simp only [if_false, reduceCtorEq, List.append_nil, List.append_assoc, List.cons_append,
        List.nil_append] at hlink hcheck hdel hfr3
      by_cases hhg : readHangs env.fs (c_str (c :: cs)) = true
      · simp [ShaderProgram, replayOutcome, hungGeometry, replayCompiled, hv, hf, hgeo, hhv,
          hhf, hhg, bind, Except.bind, pure, Except.pure, ← hfr1, ← hfr2]
      simp only [hhg, Bool.false_eq_true, if_false] at hgeo
      simp [ShaderProgram, replayOutcome, hv, hf, hgeo, hhv, hhf, hhg, hlink, hid, hcheck,
        hdel, replay, replayChecked, replayLinked, replayCompiled, ← hfr1, ← hfr2, ← hfr3,
        bind, Except.bind, pure, Except.pure]

/-! ## The constructor in closed form -/

/-- Projections of the frames `afterCompile` and `afterLinkCheck`. -/
theorem afterCompile_calls (stage : Stage) (sh : Nat) (src : Text) (rd : List Diag)
    (a : Option Int) (w : Option Text) (fr : Frame) :
    (afterCompile stage sh src rd a w fr).calls =
      fr.calls ++ [GLEvent.createShader stage sh, GLEvent.shaderSource sh src,
        GLEvent.compileShader sh, GLEvent.getShaderiv sh PName.COMPILE_STATUS a]
        ++ (if a.getD fr.success = 0 then [GLEvent.getShaderInfoLog sh 512 w] else []) := rfl

theorem afterCompile_cerr (stage : Stage) (sh : Nat) (src : Text) (rd : List Diag)
    (a : Option Int) (w : Option Text) (fr : Frame) :
    (afterCompile stage sh src rd a w fr).cerr =
      fr.cerr ++ rd
        ++ (if a.getD fr.success = 0 then [Diag.compilationFailed stage (w.getD fr.infoLog)]
            else []) := rfl

theorem afterCompile_success (stage : Stage) (sh : Nat) (src : Text) (rd : List Diag)
    (a : Option Int) (w : Option Text) (fr : Frame) :
    (afterCompile stage sh src rd a w fr).success = a.getD fr.success := rfl

theorem afterCompile_infoLog (stage : Stage) (sh : Nat) (src : Text) (rd : List Diag)
    (a : Option Int) (w : Option Text) (fr : Frame) :
    (afterCompile stage sh src rd a w fr).infoLog =
      if a.getD fr.success = 0 then w.getD fr.infoLog else fr.infoLog := rfl

theorem afterLinkCheck_calls (stage : Stage) (sh p : Nat) (b : Option Int) (m : Option Text)
    (fr : Frame) :
    (afterLinkCheck stage sh p b m fr).calls =
      fr.calls ++ [GLEvent.getProgramiv sh PName.LINK_STATUS b]
        ++ (if b.getD fr.success = 0 then [GLEvent.getProgramInfoLog p 512 m] else []) := rfl

theorem afterLinkCheck_cerr (stage : Stage) (sh p : Nat) (b : Option Int) (m : Option Text)
    (fr : Frame) :
    (afterLinkCheck stage sh p b m fr).cerr =
      fr.cerr
        ++ (if b.getD fr.success = 0 then [Diag.linkingFailed stage (m.getD fr.infoLog)]
            else []) := rfl

theorem afterLinkCheck_success (stage : Stage) (sh p : Nat) (b : Option Int) (m : Option Text)
    (fr : Frame) :
    (afterLinkCheck stage sh p b m fr).success = b.getD fr.success := rfl

theorem afterLinkCheck_infoLog (stage : Stage) (sh p : Nat) (b : Option Int) (m : Option Text)
    (fr : Frame) :
    (afterLinkCheck stage sh p b m fr).infoLog =
      if b.getD fr.success = 0 then m.getD fr.infoLog else fr.infoLog := rfl

/-- A filter goes inside a conditional. -/
theorem filter_ite {α : Type} (p : α → Bool) (c : Prop) [Decidable c] (a b : List α) :
    (if c then a else b).filter p = if c then a.filter p else b.filter p := by
  split <;> rfl

/-- A filtering map goes inside a conditional. -/
theorem filterMap_ite {α β : Type} (f : α → Option β) (c : Prop) [Decidable c] (a b : List α) :
    (if c then a else b).filterMap f = if c then a.filterMap f else b.filterMap f := by
  split <;> rfl

/-- The transcript of a construction, written out. -/
theorem replay_calls (env : Env) (f_path v_path g_path : Text) (an : Answers) :
    (replay env f_path v_path g_path an).calls =
      [GLEvent.createShader Stage.VERTEX an.vertexShader,
        GLEvent.shaderSource an.vertexShader (sourceOf env.fs v_path),
        GLEvent.compileShader an.vertexShader,
        GLEvent.getShaderiv an.vertexShader PName.COMPILE_STATUS an.vertexStatus]
      ++ (if successV env an = 0 then [GLEvent.getShaderInfoLog an.vertexShader 512 an.vertexLog]
          else [])
      ++ [GLEvent.createShader Stage.FRAGMENT an.fragmentShader,
        GLEvent.shaderSource an.fragmentShader (sourceOf env.fs f_path),
        GLEvent.compileShader an.fragmentShader,
        GLEvent.getShaderiv an.fragmentShader PName.COMPILE_STATUS an.fragmentStatus]
      ++ (if successF env an = 0 then
            [GLEvent.getShaderInfoLog an.fragmentShader 512 an.fragmentLog]
          else [])
      ++ (if g_path = [] then []
          else
            [GLEvent.createShader Stage.GEOMETRY an.geometryShader,
              GLEvent.shaderSource an.geometryShader (sourceOf env.fs g_path),
              GLEvent.compileShader an.geometryShader,
              GLEvent.getShaderiv an.geometryShader PName.COMPILE_STATUS an.geometryStatus]
            ++ (if successG env g_path an = 0 then
                  [GLEvent.getShaderInfoLog an.geometryShader 512 an.geometryLog]
                else []))
      ++ [GLEvent.createProgram an.shaderProgram,
        GLEvent.attachShader an.shaderProgram an.vertexShader,
        GLEvent.attachShader an.shaderProgram an.fragmentShader]
      ++ (if g_path = [] then []
          else [GLEvent.attachShader an.shaderProgram an.geometryShader])
      ++ [GLEvent.linkProgram an.shaderProgram,
        GLEvent.getProgramiv an.vertexShader PName.LINK_STATUS an.vertexLink]
      ++ (if successLV env g_path an = 0 then
            [GLEvent.getProgramInfoLog an.shaderProgram 512 an.vertexLinkLog]
          else [])
      ++ [GLEvent.getProgramiv an.fragmentShader PName.LINK_STATUS an.fragmentLink]
      ++ (if successLF env g_path an = 0 then
            [GLEvent.getProgramInfoLog an.shaderProgram 512 an.fragmentLinkLog]
          else [])
      ++ (if g_path = [] then []
          else
            [GLEvent.getProgramiv an.geometryShader PName.LINK_STATUS an.geometryLink]
            ++ (if successLG env g_path an = 0 then
                  [GLEvent.getProgramInfoLog an.shaderProgram 512 an.geometryLinkLog]
                else []))
      ++ [GLEvent.deleteShader an.vertexShader, GLEvent.deleteShader an.fragmentShader]
      ++ (if g_path = [] then [] else [GLEvent.deleteShader an.geometryShader]) := by
  by_cases hg : g_path = []
  · simp only [replay, replayChecked, replayLinked, replayCompiled, if_pos hg,
      afterCompile_calls, afterLinkCheck_calls, afterCompile_success, afterLinkCheck_success,
      Env.frame0, successV, successF, successG, successLV, successLF, successLG]
    simp
  · simp only [replay, replayChecked, replayLinked, replayCompiled, if_neg hg,
      afterCompile_calls, afterLinkCheck_calls, afterCompile_success, afterLinkCheck_success,
      Env.frame0, successV, successF, successG, successLV, successLF, successLG]
    simp

/-- Standard error after a construction, written out. -/
theorem replay_cerr (env : Env) (f_path v_path g_path : Text) (an : Answers) :
    (replay env f_path v_path g_path an).cerr =
      readDiags env.fs (c_str v_path)
      ++ (if successV env an = 0 then [Diag.compilationFailed Stage.VERTEX (an.vertexLog.getD env.infoLog0)]
          else [])
      ++ readDiags env.fs (c_str f_path)
      ++ (if successF env an = 0 then [Diag.compilationFailed Stage.FRAGMENT (an.fragmentLog.getD (infoLogV env an))]
          else [])
      ++ (if g_path = [] then []
          else
            readDiags env.fs (c_str g_path)
            ++ (if successG env g_path an = 0 then
                  [Diag.compilationFailed Stage.GEOMETRY (an.geometryLog.getD (infoLogF env an))]
                else []))
      ++ (if successLV env g_path an = 0 then
            [Diag.linkingFailed Stage.VERTEX (an.vertexLinkLog.getD (infoLogG env g_path an))]
          else [])
      ++ (if successLF env g_path an = 0 then
            [Diag.linkingFailed Stage.FRAGMENT
              (an.fragmentLinkLog.getD (infoLogLV env g_path an))]
          else [])
      ++ (if g_path = [] then []
          else if successLG env g_path an = 0 then
            [Diag.linkingFailed Stage.GEOMETRY
              (an.geometryLinkLog.getD (infoLogLF env g_path an))]
          else []) := by
  by_cases hg : g_path = []
  · simp only [replay, replayChecked, replayLinked, replayCompiled, if_pos hg,
      afterCompile_cerr, afterLinkCheck_cerr, afterCompile_success, afterLinkCheck_success,
      afterCompile_infoLog, afterLinkCheck_infoLog,
      Env.frame0, successV, successF, successG, successLV, successLF, successLG,
      infoLogV, infoLogF, infoLogG, infoLogLV, infoLogLF]
    simp
  · simp only [replay, replayChecked, replayLinked, replayCompiled, if_neg hg,
      afterCompile_cerr, afterLinkCheck_cerr, afterCompile_success, afterLinkCheck_success,
      afterCompile_infoLog, afterLinkCheck_infoLog,
      Env.frame0, successV, successF, successG, successLV, successLF, successLG,
      infoLogV, infoLogF, infoLogG, infoLogLV, infoLogLF]
    simp

/-- The `id` of a construction is the name of the program. -/
theorem replay_id (env : Env) (f_path v_path g_path : Text) (an : Answers) :
    (replay env f_path v_path g_path an).id = an.shaderProgram := rfl

/-- The diagnostic of `readFile` carries no stage tag. -/
theorem readDiags_taggedWith (fs : Text → Option File) (filePath : Text) (stage : Stage) :
    (readDiags fs filePath).filter (Diag.taggedWith stage) = [] := by
  unfold readDiags
  cases fs filePath <;> simp [Diag.taggedWith, Diag.stage]

/-- When each file read cannot be opened or is read to its end, the
construction returns. -/
theorem replayOutcome_ok (env : Env) (f_path v_path g_path : Text) (an : Answers)
    (h : env.filesReadToEnd f_path v_path g_path = true) :
    replayOutcome env f_path v_path g_path an = Except.ok (replay env f_path v_path g_path an) := by
  simp only [Env.filesReadToEnd, readsToEnd, Bool.and_eq_true, Bool.or_eq_true,
    Bool.not_eq_true', decide_eq_true_eq] at h
  obtain ⟨⟨h1, h2⟩, h3⟩ := h
  unfold replayOutcome
  rcases h3 with h3 | h3 <;> simp [h1, h2, h3]

/-- A construction that returns is the replay of the answers, and each file it
read could not be opened or was read to its end. -/
theorem replayOutcome_eq_ok (env : Env) (f_path v_path g_path : Text) (an : Answers)
    (out : Constructed) (h : replayOutcome env f_path v_path g_path an = Except.ok out) :
    out = replay env f_path v_path g_path an ∧
      env.filesReadToEnd f_path v_path g_path = true := by
  unfold replayOutcome at h
  split_ifs at h with h1 h2 h3
  simp only [Except.ok.injEq] at h
  refine ⟨h.symm, ?_⟩
  simp only [Env.filesReadToEnd, readsToEnd, Bool.and_eq_true, Bool.or_eq_true,
    Bool.not_eq_true', decide_eq_true_eq]
  refine ⟨⟨by simpa using h1, by simpa using h2⟩, ?_⟩
  by_cases hg : g_path = []
  · exact Or.inl hg
  · right
    simpa [hg] using h3

/-- Every construction for which each file read cannot be opened or is read to
its end returns the replay of the answers the driver gave. -/
theorem run_returns (env : Env) (f_path v_path g_path : Text)
    (h : env.filesReadToEnd f_path v_path g_path = true) :
    ∃ an : Answers, an.logsFit ∧
      ShaderProgram env f_path v_path g_path =
        Except.ok (replay env f_path v_path g_path an) := by
  obtain ⟨an, hfit, hrun⟩ := run_eq_replay env f_path v_path g_path
  exact ⟨an, hfit, by rw [hrun, replayOutcome_ok _ _ _ _ _ h]⟩

/-- Every construction that returns is the replay of the answers the driver gave. -/
theorem run_returned (env : Env) (f_path v_path g_path : Text) (out : Constructed)
    (h : ShaderProgram env f_path v_path g_path = Except.ok out) :
    ∃ an : Answers, an.logsFit ∧ out = replay env f_path v_path g_path an ∧
      env.filesReadToEnd f_path v_path g_path = true := by
  obtain ⟨an, hfit, hrun⟩ := run_eq_replay env f_path v_path g_path
  rw [hrun] at h
  exact ⟨an, hfit, replayOutcome_eq_ok _ _ _ _ _ _ h⟩

/-! ## Properties of readFile -/

/-- C10: for every file that can be opened, whatever its content `c` (empty,
with blank lines, with or without a final line feed), the read loop ends
within its bound and `readFile` returns `c` followed by one more line feed,
writing nothing; hence `readFile` returns the empty text exactly when the file
could not be opened. -/
theorem readFile_appends_one_newline (fs : Text → Option File) (filePath : Text)
    (cerr : List Diag) :
    (∀ c, fs filePath = some (File.regular c) →
      readLoop (c.length + 1) (IfStream.opened (File.regular c)) [] [] = some (c ++ [LF]) ∧
      readFile fs filePath cerr = some (c ++ [LF], cerr)) ∧
    (readHangs fs filePath = false →
      ∃ r, readFile fs filePath cerr = some r ∧ (r.1 = [] ↔ fs filePath = none)) ∧
    (∀ r, readFile fs filePath cerr = some r → (r.1 = [] ↔ fs filePath = none)) := by
  have key : ∀ r, readFile fs filePath cerr = some r → (r.1 = [] ↔ fs filePath = none) := by
    intro r hr
    rw [readFile_eq] at hr
    split_ifs at hr
    simp only [Option.some.injEq] at hr
    subst hr
    cases h : fs filePath <;> simp [readText, h]
  refine ⟨fun c hc => ⟨?_, ?_⟩, ?_, key⟩
  · simpa using readLoop_regular (c.length + 1) c [] [] (Nat.lt_succ_self _)
  · rw [readFile_eq]
    simp [readText, readDiags, readHangs, hc, File.regular]
  · intro hh
    have : readFile fs filePath cerr = some (readText fs filePath, cerr ++ readDiags fs filePath) := by
      rw [readFile_eq]
      simp [hh]
    exact ⟨_, this, key _ this⟩

/-- C10 at a file without a final line feed and holding a blank line. -/
theorem readFile_appends_one_newline_witness :
    readLoop 5 (IfStream.opened (File.regular [ 'a', LF, LF, 'b'])) [] [] =
      some [ 'a', LF, LF, 'b', LF] ∧
    readFile (fun _ => some (File.regular [ 'a', LF, LF, 'b'])) [ 'p'] [] =
      some ([ 'a', LF, LF, 'b', LF], []) :=
  (readFile_appends_one_newline (fun _ => some (File.regular [ 'a', LF, LF, 'b'])) [ 'p'] []).1
    [ 'a', LF, LF, 'b'] rfl

/-- C1: a file of lines that each end with a line feed does not come back as
it is: whatever the lines, `readFile` returns them followed by one more line
feed, that is by one more, empty line; so it does on a shader file of three
lines. -/
theorem readFile_three_lines_adds_blank_line :
    (∀ (lines : List Text) (filePath : Text),
      readFile (fun _ => some (File.regular (joinLines lines))) filePath [] =
        some (joinLines lines ++ [LF], []) ∧
      joinLines lines ++ [LF] ≠ joinLines lines) ∧
    joinLines [ "#version 330 core".toList, "in vec3 p;".toList, "void main();".toList] =
      "#version 330 core\nin vec3 p;\nvoid main();\n".toList ∧
    readFile (fun _ => some (File.regular "#version 330 core\nin vec3 p;\nvoid main();\n".toList))
        "shader.glsl".toList [] =
      some ("#version 330 core\nin vec3 p;\nvoid main();\n\n".toList, []) ∧
    "#version 330 core\nin vec3 p;\nvoid main();\n\n".toList ≠
      "#version 330 core\nin vec3 p;\nvoid main();\n".toList := by
  refine ⟨fun lines filePath => ⟨?_, ?_⟩, by decide, by rfl, by decide⟩
  · rw [readFile_eq]
    simp [readText, readDiags, readHangs, File.regular]
  · intro h
    have := congrArg List.length h
    simp at this

/-! ## Properties of the constructor -/

/-- C3: a construction with an empty `g_path`, whether it returns or stays in a
read that never ends, makes no other calls than those of the vertex and
fragment stages, in their order: at most two shaders are created, none of them
a geometry shader, at most two are attached, at most two link status queries
are made and at most two shaders are deleted, and exactly these sixteen calls
when each file read cannot be opened or is read to its end; the info log
queries, if any, are on these two shaders or on the program; and no diagnostic
is tagged GEOMETRY, whatever the driver answers. -/
theorem empty_g_path_no_geometry (env : Env) (f_path v_path : Text) :
    ∃ vs fs p aV aF bV bF,
      operations (transcript (ShaderProgram env f_path v_path [])) <+:
        [GLEvent.createShader Stage.VERTEX vs,
          GLEvent.shaderSource vs (sourceOf env.fs v_path),
          GLEvent.compileShader vs,
          GLEvent.getShaderiv vs PName.COMPILE_STATUS aV,
          GLEvent.createShader Stage.FRAGMENT fs,
          GLEvent.shaderSource fs (sourceOf env.fs f_path),
          GLEvent.compileShader fs,
          GLEvent.getShaderiv fs PName.COMPILE_STATUS aF,
          GLEvent.createProgram p,
          GLEvent.attachShader p vs,
          GLEvent.attachShader p fs,
          GLEvent.linkProgram p,
          GLEvent.getProgramiv vs PName.LINK_STATUS bV,
          GLEvent.getProgramiv fs PName.LINK_STATUS bF,
          GLEvent.deleteShader vs,
          GLEvent.deleteShader fs] ∧
      (env.filesReadToEnd f_path v_path [] = true →
        ∃ out, ShaderProgram env f_path v_path [] = Except.ok out ∧
          operations out.calls =
            [GLEvent.createShader Stage.VERTEX vs,
              GLEvent.shaderSource vs (sourceOf env.fs v_path),
              GLEvent.compileShader vs,
              GLEvent.getShaderiv vs PName.COMPILE_STATUS aV,
              GLEvent.createShader Stage.FRAGMENT fs,
              GLEvent.shaderSource fs (sourceOf env.fs f_path),
              GLEvent.compileShader fs,
              GLEvent.getShaderiv fs PName.COMPILE_STATUS aF,
              GLEvent.createProgram p,
              GLEvent.attachShader p vs,
              GLEvent.attachShader p fs,
              GLEvent.linkProgram p,
              GLEvent.getProgramiv vs PName.LINK_STATUS bV,
              GLEvent.getProgramiv fs PName.LINK_STATUS bF,
              GLEvent.deleteShader vs,
              GLEvent.deleteShader fs]) ∧
      (fetches (transcript (ShaderProgram env f_path v_path []))).map GLEvent.request ⊆
        [GLEvent.getShaderInfoLog vs 512 none, GLEvent.getShaderInfoLog fs 512 none,
          GLEvent.getProgramInfoLog p 512 none] ∧
      (written (ShaderProgram env f_path v_path [])).filter (Diag.taggedWith Stage.GEOMETRY)
        = [] := by
  obtain ⟨an, -, hrun⟩ := run_eq_replay env f_path v_path []
  have hops : operations (replay env f_path v_path [] an).calls =
      [GLEvent.createShader Stage.VERTEX an.vertexShader,
        GLEvent.shaderSource an.vertexShader (sourceOf env.fs v_path),
        GLEvent.compileShader an.vertexShader,
        GLEvent.getShaderiv an.vertexShader PName.COMPILE_STATUS an.vertexStatus,
        GLEvent.createShader Stage.FRAGMENT an.fragmentShader,
        GLEvent.shaderSource an.fragmentShader (sourceOf env.fs f_path),
        GLEvent.compileShader an.fragmentShader,
        GLEvent.getShaderiv an.fragmentShader PName.COMPILE_STATUS an.fragmentStatus,
        GLEvent.createProgram an.shaderProgram,
        GLEvent.attachShader an.shaderProgram an.vertexShader,
        GLEvent.attachShader an.shaderProgram an.fragmentShader,
        GLEvent.linkProgram an.shaderProgram,
        GLEvent.getProgramiv an.vertexShader PName.LINK_STATUS an.vertexLink,
        GLEvent.getProgramiv an.fragmentShader PName.LINK_STATUS an.fragmentLink,
        GLEvent.deleteShader an.vertexShader,
        GLEvent.deleteShader an.fragmentShader] := by
    rw [replay_calls]
    simp [operations, filter_ite, isFetch]
  refine ⟨an.vertexShader, an.fragmentShader, an.shaderProgram, an.vertexStatus,
    an.fragmentStatus, an.vertexLink, an.fragmentLink, ?_, ?_, ?_, ?_⟩
  · rw [hrun]
    unfold replayOutcome
    split_ifs with h1 h2 h3
    · simp [transcript, hungVertex, operations, isFetch]
    · simp [transcript, hungFragment, afterCompile_calls, Env.frame0, operations, filter_ite,
        isFetch]
    · simp at h3
    · simp only [transcript, hops]
      exact List.prefix_refl _
  · intro h
    rw [hrun, replayOutcome_ok _ _ _ _ _ h]
    exact ⟨_, rfl, hops⟩
  · rw [hrun]
    unfold replayOutcome
    split_ifs with h1 h2 h3
    · simp [transcript, hungVertex, fetches, isFetch]
    · simp only [transcript, hungFragment, afterCompile_calls, Env.frame0, fetches,
        List.filter_append, filter_ite, List.map_append, List.append_subset]
      repeat' constructor
      all_goals first
        | (split_ifs <;> simp [isFetch, GLEvent.request])
        | simp [isFetch, GLEvent.request]
    · simp at h3
    · simp only [transcript]
      rw [replay_calls]
      simp only [fetches, List.filter_append, filter_ite, List.map_append, List.append_subset,
        if_true]
      repeat' constructor
      all_goals first
        | (split_ifs <;> simp [isFetch, GLEvent.request])
        | simp [isFetch, GLEvent.request]
  · rw [hrun]
    unfold replayOutcome
    split_ifs with h1 h2 h3
    · simp [written, hungVertex, Env.frame0]
    · simp only [written, hungFragment, afterCompile_cerr, Env.frame0, List.filter_append,
        filter_ite, readDiags_taggedWith]
      split_ifs <;> simp [Diag.taggedWith, Diag.stage]
    · simp at h3
    · simp only [written]
      rw [replay_cerr]
      simp only [List.filter_append, filter_ite, if_true, readDiags_taggedWith]
      split_ifs <;> simp [Diag.taggedWith, Diag.stage]

/-- C2: the link status queries are made on the names of the shaders, never on
that of the program unless the driver gave it the name of a shader; so with
the reference driver, two shaders that compile and a program that fails to
link, the constructor writes nothing although the link status of the program
it created, `id`, is zero. -/
theorem link_failure_unreported :
    (∀ (env : Env) (f_path v_path g_path : Text),
      (env.filesReadToEnd f_path v_path g_path = true →
        ∃ out, ShaderProgram env f_path v_path g_path = Except.ok out) ∧
      ∀ out, ShaderProgram env f_path v_path g_path = Except.ok out →
        linkQueried out.calls = createdShaders out.calls) ∧
    ∃ out, ShaderProgram (sampleEnv linkRefused) "shader.frag".toList "shader.vert".toList []
        = Except.ok out ∧
      out.id = 3 ∧
      linkQueried out.calls = [1, 2] ∧
      (refDriver linkRefused).getProgramiv out.calls out.id PName.LINK_STATUS = some 0 ∧
      out.cerr = [] := by
  constructor
  · intro env f_path v_path g_path
    constructor
    · intro h
      obtain ⟨an, -, hrun⟩ := run_returns env f_path v_path g_path h
      exact ⟨_, hrun⟩
    · intro out hout
      obtain ⟨an, -, rfl, -⟩ := run_returned env f_path v_path g_path out hout
      rw [replay_calls]
      by_cases hg : g_path = [] <;> simp [linkQueried, createdShaders, filterMap_ite, hg]
  · exact ⟨_, rfl, by decide, by decide, by decide, by decide⟩

/-- C4: when the vertex and the fragment file can be opened and `g_path` is
empty, the construction returns as soon as both files are read to their end;
and when it returns with every compile status query answered with success, no
link status query reading failure and `glCreateProgram` having returned a name
`h` other than zero, then `id = h`, hence not zero, and nothing is on standard
error. -/
theorem valid_pair_silent (env : Env) (f_path v_path : Text) (fv ff : File)
    (hv : env.fs (c_str v_path) = some fv) (hf : env.fs (c_str f_path) = some ff) :
    (fv.readError = false → ff.readError = false →
      ∃ out, ShaderProgram env f_path v_path [] = Except.ok out) ∧
    ∀ out h, ShaderProgram env f_path v_path [] = Except.ok out →
      out.calls.all compiledOk = true → out.calls.all linkedOk = true →
      GLEvent.createProgram h ∈ out.calls → h ≠ 0 →
      out.id = h ∧ out.id ≠ 0 ∧ out.cerr = [] := by
  constructor
  · intro h1 h2
    obtain ⟨an, -, hrun⟩ := run_returns env f_path v_path []
      (by simp [Env.filesReadToEnd, readsToEnd, readHangs, hv, hf, h1, h2])
    exact ⟨_, hrun⟩
  intro out h hout hc hl hmem hne
  obtain ⟨an, -, rfl, -⟩ := run_returned env f_path v_path [] out hout
  rw [replay_calls] at hc hl hmem
  have h1 := List.all_eq_true.mp hc
    (GLEvent.getShaderiv an.vertexShader PName.COMPILE_STATUS an.vertexStatus) (by simp)
  have h2 := List.all_eq_true.mp hc
    (GLEvent.getShaderiv an.fragmentShader PName.COMPILE_STATUS an.fragmentStatus) (by simp)
  have h3 := List.all_eq_true.mp hl
    (GLEvent.getProgramiv an.vertexShader PName.LINK_STATUS an.vertexLink) (by simp)
  have h4 := List.all_eq_true.mp hl
    (GLEvent.getProgramiv an.fragmentShader PName.LINK_STATUS an.fragmentLink) (by simp)
  have e2 : successF env an ≠ 0 := by
    unfold successF
    cases hs : an.fragmentStatus with
    | none => simp [hs, compiledOk] at h2
    | some s => simpa [hs, compiledOk] using h2
  have e1 : successV env an ≠ 0 := by
    unfold successV
    cases hs : an.vertexStatus with
    | none => simp [hs, compiledOk] at h1
    | some s => simpa [hs, compiledOk] using h1
  have e3 : successLV env [] an ≠ 0 := by
    unfold successLV successG
    cases hs : an.vertexLink with
    | none => simpa using e2
    | some s => simpa [hs, linkedOk] using h3
  have e4 : successLF env [] an ≠ 0 := by
    unfold successLF
    cases hs : an.fragmentLink with
    | none => simpa using e3
    | some s => simpa [hs, linkedOk] using h4
  have hp : h = an.shaderProgram := by
    simpa [e1, e2, e3, e4] using hmem
  subst hp
  rw [replay_cerr, replay_id]
  simp [e1, e2, e3, e4, readDiags, hv, hf, hne]

/-- C4 at the sample files: both files are read to their end, the construction
returns, the program is the third object created, `id` is 3 and standard error
is empty. -/
theorem valid_pair_silent_witness :
    sampleFiles (c_str "shader.vert".toList) =
      some (File.regular "#version 330 core\nvoid main();\n".toList) ∧
    sampleFiles (c_str "shader.frag".toList) =
      some (File.regular "#version 330 core\nout vec4 c;\n".toList) ∧
    ShaderProgram (sampleEnv okToolchain) "shader.frag".toList "shader.vert".toList []
      = Except.ok validOutcome ∧
    validOutcome.id = 3 ∧ validOutcome.id ≠ 0 ∧ validOutcome.cerr = [] :=
  ⟨by decide, by decide, rfl,
    (valid_pair_silent (sampleEnv okToolchain) "shader.frag".toList "shader.vert".toList
      (File.regular "#version 330 core\nvoid main();\n".toList)
      (File.regular "#version 330 core\nout vec4 c;\n".toList)
      (by decide) (by decide)).2 validOutcome 3 rfl (by decide) (by decide) (by decide)
      (by decide)⟩

/-- No construction depends on what `geometryShader` held before the geometry
block. -/
theorem geometryShader0_unused (env : Env) (f_path v_path g_path : Text) (x : Int) :
    ShaderProgram { env with geometryShader0 := x } f_path v_path g_path =
      ShaderProgram env f_path v_path g_path := by
  cases g_path <;> rfl

/-- C7: a non-empty `g_path` does not always bring the three shaders to the
program.  When each file read cannot be opened or is read to its end, one
shader of each type is created, the three are attached to the one program
returned by `glCreateProgram` before it is linked, the three are deleted
afterwards and `id` is the name of that program; the two tests on `g_path`
agree on every text and no construction depends on the value `geometryShader`
held before the geometry block.  But with `g_path` the directory `shaders`,
which opens and whose read fails, the constructor does not return: it stays in
the read loop after `glCreateShader(GL_GEOMETRY_SHADER)`, with no program
created, nothing attached, linked or deleted, and no `id`. -/
theorem geometry_directory_never_attached :
    (∀ (env : Env) (f_path v_path g_path : Text), g_path ≠ [] →
      env.filesReadToEnd f_path v_path g_path = true →
      ∃ out vs fs gs p aV aF aG bV bF bG,
        ShaderProgram env f_path v_path g_path = Except.ok out ∧ out.id = p ∧
        operations out.calls =
          [GLEvent.createShader Stage.VERTEX vs,
            GLEvent.shaderSource vs (sourceOf env.fs v_path),
            GLEvent.compileShader vs,
            GLEvent.getShaderiv vs PName.COMPILE_STATUS aV,
            GLEvent.createShader Stage.FRAGMENT fs,
            GLEvent.shaderSource fs (sourceOf env.fs f_path),
            GLEvent.compileShader fs,
            GLEvent.getShaderiv fs PName.COMPILE_STATUS aF,
            GLEvent.createShader Stage.GEOMETRY gs,
            GLEvent.shaderSource gs (sourceOf env.fs g_path),
            GLEvent.compileShader gs,
            GLEvent.getShaderiv gs PName.COMPILE_STATUS aG,
            GLEvent.createProgram p,
            GLEvent.attachShader p vs,
            GLEvent.attachShader p fs,
            GLEvent.attachShader p gs,
            GLEvent.linkProgram p,
            GLEvent.getProgramiv vs PName.LINK_STATUS bV,
            GLEvent.getProgramiv fs PName.LINK_STATUS bF,
            GLEvent.getProgramiv gs PName.LINK_STATUS bG,
            GLEvent.deleteShader vs,
            GLEvent.deleteShader fs,
            GLEvent.deleteShader gs]) ∧
    (∀ s : Text, (s != []) = !(s.length == 0)) ∧
    (∀ (env : Env) (f_path v_path s : Text) (x : Int),
      ShaderProgram { env with geometryShader0 := x } f_path v_path s =
        ShaderProgram env f_path v_path s) ∧
    "shaders".toList ≠ [] ∧
    sampleFiles (c_str "shaders".toList) = some File.directory ∧
    (∀ fuel line content,
      readLoop fuel (IfStream.opened File.directory) line content = none) ∧
    readFile sampleFiles (c_str "shaders".toList) [] = none ∧
    returned (ShaderProgram (sampleEnv okToolchain) "shader.frag".toList "shader.vert".toList
      "shaders".toList) = none ∧
    transcript (ShaderProgram (sampleEnv okToolchain) "shader.frag".toList "shader.vert".toList
      "shaders".toList) =
      [GLEvent.createShader Stage.VERTEX 1,
        GLEvent.shaderSource 1 "#version 330 core\nvoid main();\n\n".toList,
        GLEvent.compileShader 1,
        GLEvent.getShaderiv 1 PName.COMPILE_STATUS (some 1),
        GLEvent.createShader Stage.FRAGMENT 2,
        GLEvent.shaderSource 2 "#version 330 core\nout vec4 c;\n\n".toList,
        GLEvent.compileShader 2,
        GLEvent.getShaderiv 2 PName.COMPILE_STATUS (some 1),
        GLEvent.createShader Stage.GEOMETRY 3] := by
  refine ⟨?_, isEmpty_tests_agree, geometryShader0_unused, by decide, by decide,
    fun fuel line content => readLoop_readError fuel [] line content, by decide, by decide,
    by decide⟩
  intro env f_path v_path g_path hg hread
  obtain ⟨an, -, hrun⟩ := run_returns env f_path v_path g_path hread
  refine ⟨_, an.vertexShader, an.fragmentShader, an.geometryShader, an.shaderProgram,
    an.vertexStatus, an.fragmentStatus, an.geometryStatus, an.vertexLink, an.fragmentLink,
    an.geometryLink, hrun, rfl, ?_⟩
  rw [replay_calls]
  simp [operations, filter_ite, isFetch, hg]

/-- C9: not every shader created is deleted.  In a construction that returns,
the names deleted are the names created, one deletion for each creation and in
the same order, and among the link and delete calls the link comes first; and
no construction, returning or not, calls `glDeleteProgram`.  But with `v_path`
the directory `shaders`, which opens and whose read fails, the constructor
does not return: it stays in the read loop after
`glCreateShader(GL_VERTEX_SHADER)`, and the shader created is never deleted. -/
theorem directory_read_leaks_shader :
    (∀ (env : Env) (f_path v_path g_path : Text) (out : Constructed),
      ShaderProgram env f_path v_path g_path = Except.ok out →
      ∃ p, deletedShaders out.calls = createdShaders out.calls ∧
        (∀ name,
          (deletedShaders out.calls).count name = (createdShaders out.calls).count name) ∧
        out.calls.filter isLinkOrDelete =
          GLEvent.linkProgram p :: (createdShaders out.calls).map GLEvent.deleteShader) ∧
    (∀ (env : Env) (f_path v_path g_path : Text),
      (transcript (ShaderProgram env f_path v_path g_path)).filter isDeleteProgram = []) ∧
    sampleFiles (c_str "shaders".toList) = some File.directory ∧
    (∀ fuel line content,
      readLoop fuel (IfStream.opened File.directory) line content = none) ∧
    readFile sampleFiles (c_str "shaders".toList) [] = none ∧
    returned (ShaderProgram (sampleEnv okToolchain) "shader.frag".toList "shaders".toList [])
      = none ∧
    transcript (ShaderProgram (sampleEnv okToolchain) "shader.frag".toList "shaders".toList [])
      = [GLEvent.createShader Stage.VERTEX 1] ∧
    createdShaders
      (transcript (ShaderProgram (sampleEnv okToolchain) "shader.frag".toList "shaders".toList []))
      = [1] ∧
    deletedShaders
      (transcript (ShaderProgram (sampleEnv okToolchain) "shader.frag".toList "shaders".toList []))
      = [] := by
  refine ⟨?_, ?_, by decide, fun fuel line content => readLoop_readError fuel [] line content,
    by decide, by decide, by decide, by decide, by decide⟩
  · intro env f_path v_path g_path out hout
    obtain ⟨an, -, rfl, -⟩ := run_returned env f_path v_path g_path out hout
    have h1 : deletedShaders (replay env f_path v_path g_path an).calls =
        createdShaders (replay env f_path v_path g_path an).calls := by
      rw [replay_calls]
      by_cases hg : g_path = [] <;> simp [deletedShaders, createdShaders, filterMap_ite, hg]
    refine ⟨an.shaderProgram, h1, fun name => by rw [h1], ?_⟩
    rw [replay_calls]
    by_cases hg : g_path = [] <;>
      simp [createdShaders, filter_ite, filterMap_ite, isLinkOrDelete, hg]
  · intro env f_path v_path g_path
    obtain ⟨an, -, hrun⟩ := run_eq_replay env f_path v_path g_path
    rw [hrun]
    unfold replayOutcome
    split_ifs with h1 h2 h3
    · simp [transcript, hungVertex, isDeleteProgram]
    · simp [transcript, hungFragment, afterCompile_calls, Env.frame0, filter_ite,
        isDeleteProgram]
    · simp [transcript, hungGeometry, replayCompiled, afterCompile_calls, Env.frame0,
        filter_ite, isDeleteProgram]
    · simp only [transcript]
      rw [replay_calls]
      by_cases hg : g_path = [] <;> simp [filter_ite, isDeleteProgram, hg]

/-- C8, as stated, fails twice.  Two constructions with the same arguments, the
same files and an empty `g_path`, whose drivers differ only in the compile
status of the vertex shader, do not make the same sequence of calls: the
second makes one call more, `glGetShaderInfoLog` on the vertex shader.  And a
construction whose `v_path` is the directory `shaders`, which opens and whose
read fails, does not run to completion: it makes one call and sets no `id`. -/
theorem calls_vary_with_status :
    (returned (ShaderProgram (sampleEnv okToolchain) "shader.frag".toList "shader.vert".toList
        [])).map (fun out => out.calls.map GLEvent.request) ≠
      (returned (ShaderProgram (sampleEnv vertexRejected) "shader.frag".toList
        "shader.vert".toList [])).map (fun out => out.calls.map GLEvent.request) ∧
    (returned (ShaderProgram (sampleEnv okToolchain) "shader.frag".toList "shader.vert".toList
        [])).map (fun out => (out.calls.length, (fetches out.calls).map GLEvent.request)) =
      some (16, []) ∧
    (returned (ShaderProgram (sampleEnv vertexRejected) "shader.frag".toList
        "shader.vert".toList [])).map
        (fun out => (out.calls.length, (fetches out.calls).map GLEvent.request)) =
      some (17, [GLEvent.getShaderInfoLog 1 512 none]) ∧
    sampleFiles (c_str "shaders".toList) = some File.directory ∧
    readFile sampleFiles (c_str "shaders".toList) [] = none ∧
    returned (ShaderProgram (sampleEnv okToolchain) "shader.frag".toList "shaders".toList [])
      = none ∧
    transcript (ShaderProgram (sampleEnv okToolchain) "shader.frag".toList "shaders".toList [])
      = [GLEvent.createShader Stage.VERTEX 1] := by
  decide

/-- C8, amended: every construction in which each file read cannot be opened
or is read to its end runs to completion whatever the driver does; its calls
other than the info log queries are, in this order, those of
`expectedOperations`, a function of whether `g_path` is empty, of the names
the driver returned and of the source texts, and of no status; the info log
queries are on the shaders and the program of the construction; and `id` is
the value returned by `glCreateProgram`. -/
theorem construction_completes (env : Env) (f_path v_path g_path : Text)
    (hread : env.filesReadToEnd f_path v_path g_path = true) :
    ∃ out vs fs gs p, ShaderProgram env f_path v_path g_path = Except.ok out ∧ out.id = p ∧
      (operations out.calls).map GLEvent.request =
        expectedOperations (decide (g_path = [])) vs fs gs p (sourceOf env.fs v_path)
          (sourceOf env.fs f_path) (sourceOf env.fs g_path) none none none none none none ∧
      (fetches out.calls).map GLEvent.request ⊆
        [GLEvent.getShaderInfoLog vs 512 none, GLEvent.getShaderInfoLog fs 512 none,
          GLEvent.getShaderInfoLog gs 512 none, GLEvent.getProgramInfoLog p 512 none] := by
  obtain ⟨an, -, hrun⟩ := run_returns env f_path v_path g_path hread
  refine ⟨_, an.vertexShader, an.fragmentShader, an.geometryShader, an.shaderProgram,
    hrun, rfl, ?_, ?_⟩
  · rw [replay_calls]
    by_cases hg : g_path = [] <;>
      simp [operations, expectedOperations, filter_ite, isFetch, GLEvent.request, hg]
  · rw [replay_calls]
    simp only [fetches, List.filter_append, filter_ite, List.map_append, List.append_subset]
    repeat' constructor
    all_goals first
      | (split_ifs <;> simp [isFetch, GLEvent.request])
      | simp [isFetch, GLEvent.request]

/-- C8, amended, at the sample files with a missing fragment file, the
geometry shader `shader.geom` and a compiler that rejects the vertex shader. -/
theorem construction_completes_witness :
    (sampleEnv vertexRejected).filesReadToEnd "missing.frag".toList "shader.vert".toList
      "shader.geom".toList = true ∧
    ∃ out vs fs gs p,
      ShaderProgram (sampleEnv vertexRejected) "missing.frag".toList "shader.vert".toList
        "shader.geom".toList = Except.ok out ∧ out.id = p ∧
      (operations out.calls).map GLEvent.request =
        expectedOperations (decide ("shader.geom".toList = [])) vs fs gs p
          (sourceOf (sampleEnv vertexRejected).fs "shader.vert".toList)
          (sourceOf (sampleEnv vertexRejected).fs "missing.frag".toList)
          (sourceOf (sampleEnv vertexRejected).fs "shader.geom".toList)
          none none none none none none ∧
      (fetches out.calls).map GLEvent.request ⊆
        [GLEvent.getShaderInfoLog vs 512 none, GLEvent.getShaderInfoLog fs 512 none,
          GLEvent.getShaderInfoLog gs 512 none, GLEvent.getProgramInfoLog p 512 none] :=
  ⟨by decide,
    construction_completes (sampleEnv vertexRejected) "missing.frag".toList
      "shader.vert".toList "shader.geom".toList (by decide)⟩

/-- The diagnostic of `readFile` is not a compilation failure. -/
theorem readDiags_isCompilationFailed (fs : Text → Option File) (filePath : Text)
    (stage : Stage) :
    (readDiags fs filePath).filter (Diag.isCompilationFailed stage) = [] := by
  unfold readDiags
  cases fs filePath <;> simp [Diag.isCompilationFailed]

/-- The calls of a construction other than info log queries. -/
theorem operations_replay (env : Env) (f_path v_path g_path : Text) (an : Answers) :
    operations (replay env f_path v_path g_path an).calls =
      expectedOperations (decide (g_path = [])) an.vertexShader an.fragmentShader
        an.geometryShader an.shaderProgram (sourceOf env.fs v_path) (sourceOf env.fs f_path)
        (sourceOf env.fs g_path) an.vertexStatus an.fragmentStatus an.geometryStatus
        an.vertexLink an.fragmentLink an.geometryLink := by
  rw [replay_calls]
  by_cases hg : g_path = [] <;>
    simp [operations, expectedOperations, filter_ite, isFetch, hg]

/-- The vertex stage: with the queries answered, the diagnostic follows the status. -/
theorem stage_vertex (env : Env) (f_path v_path g_path : Text) (an : Answers)
    (hfit : an.logsFit)
    (h1 : answered (GLEvent.getShaderiv an.vertexShader PName.COMPILE_STATUS an.vertexStatus)
      = true)
    (h2 : successV env an = 0 →
      answered (GLEvent.getShaderInfoLog an.vertexShader 512 an.vertexLog) = true) :
    ∃ status, an.vertexStatus = some status ∧
      (status ≠ 0 → (replay env f_path v_path g_path an).cerr.filter
        (Diag.isCompilationFailed Stage.VERTEX) = []) ∧
      (status = 0 → ∃ log, GLEvent.getShaderInfoLog an.vertexShader 512 (some log) ∈
          (replay env f_path v_path g_path an).calls ∧
        log.length ≤ 511 ∧
        (replay env f_path v_path g_path an).cerr.filter (Diag.isCompilationFailed Stage.VERTEX) =
          [Diag.compilationFailed Stage.VERTEX log]) := by
  cases hs : an.vertexStatus with
  | none => simp [hs, answered] at h1
  | some s =>
    have hsv : successV env an = s := by simp [successV, hs]
    refine ⟨s, rfl, ?_, ?_⟩
    · intro hne
      rw [replay_cerr]
      simp [List.filter_append, filter_ite, readDiags_isCompilationFailed,
        Diag.isCompilationFailed, hsv, hne]
    · intro h0
      have h0' : successV env an = 0 := by rw [hsv, h0]
      cases hl : an.vertexLog with
      | none => simp [hl, answered] at h2; exact absurd h0' h2
      | some l =>
        refine ⟨l, ?_, hfit _ (by simp) l hl, ?_⟩
        · rw [replay_calls]
          simp [h0', hl]
        · rw [replay_cerr]
          simp [List.filter_append, filter_ite, readDiags_isCompilationFailed,
            Diag.isCompilationFailed, h0', hl]

/-- The fragment stage: with the queries answered, the diagnostic follows the
status. -/
theorem stage_fragment (env : Env) (f_path v_path g_path : Text) (an : Answers)
    (hfit : an.logsFit)
    (h1 : answered (GLEvent.getShaderiv an.fragmentShader PName.COMPILE_STATUS an.fragmentStatus)
      = true)
    (h2 : successF env an = 0 →
      answered (GLEvent.getShaderInfoLog an.fragmentShader 512 an.fragmentLog) = true) :
    ∃ status, an.fragmentStatus = some status ∧
      (status ≠ 0 → (replay env f_path v_path g_path an).cerr.filter
        (Diag.isCompilationFailed Stage.FRAGMENT) = []) ∧
      (status = 0 → ∃ log, GLEvent.getShaderInfoLog an.fragmentShader 512 (some log) ∈
          (replay env f_path v_path g_path an).calls ∧
        log.length ≤ 511 ∧
        (replay env f_path v_path g_path an).cerr.filter
            (Diag.isCompilationFailed Stage.FRAGMENT) =
          [Diag.compilationFailed Stage.FRAGMENT log]) := by
  cases hs : an.fragmentStatus with
  | none => simp [hs, answered] at h1
  | some s =>
    have hsv : successF env an = s := by simp [successF, hs]
    refine ⟨s, rfl, ?_, ?_⟩
    · intro hne
      rw [replay_cerr]
      simp [List.filter_append, filter_ite, readDiags_isCompilationFailed,
        Diag.isCompilationFailed, hsv, hne]
    · intro h0
      have h0' : successF env an = 0 := by rw [hsv, h0]
      cases hl : an.fragmentLog with
      | none => simp [hl, answered] at h2; exact absurd h0' h2
      | some l =>
        refine ⟨l, ?_, hfit _ (by simp) l hl, ?_⟩
        · rw [replay_calls]
          simp [h0', hl]
        · rw [replay_cerr]
          simp [List.filter_append, filter_ite, readDiags_isCompilationFailed,
            Diag.isCompilationFailed, h0', hl]

/-- The geometry stage: with the queries answered, the diagnostic follows the
status. -/
theorem stage_geometry (env : Env) (f_path v_path g_path : Text) (an : Answers)
    (hfit : an.logsFit) (hg : g_path ≠ [])
    (h1 : answered (GLEvent.getShaderiv an.geometryShader PName.COMPILE_STATUS an.geometryStatus)
      = true)
    (h2 : successG env g_path an = 0 →
      answered (GLEvent.getShaderInfoLog an.geometryShader 512 an.geometryLog) = true) :
    ∃ status, an.geometryStatus = some status ∧
      (status ≠ 0 → (replay env f_path v_path g_path an).cerr.filter
        (Diag.isCompilationFailed Stage.GEOMETRY) = []) ∧
      (status = 0 → ∃ log, GLEvent.getShaderInfoLog an.geometryShader 512 (some log) ∈
          (replay env f_path v_path g_path an).calls ∧
        log.length ≤ 511 ∧
        (replay env f_path v_path g_path an).cerr.filter
            (Diag.isCompilationFailed Stage.GEOMETRY) =
          [Diag.compilationFailed Stage.GEOMETRY log]) := by
  cases hs : an.geometryStatus with
  | none => simp [hs, answered] at h1
  | some s =>
    have hsv : successG env g_path an = s := by simp [successG, hs, hg]
    refine ⟨s, rfl, ?_, ?_⟩
    · intro hne
      rw [replay_cerr]
      simp [List.filter_append, filter_ite, readDiags_isCompilationFailed,
        Diag.isCompilationFailed, hsv, hne, hg]
    · intro h0
      have h0' : successG env g_path an = 0 := by rw [hsv, h0]
      cases hl : an.geometryLog with
      | none => simp [hl, answered] at h2; exact absurd h0' h2
      | some l =>
        refine ⟨l, ?_, hfit _ (by simp) l hl, ?_⟩
        · rw [replay_calls]
          simp [h0', hl, hg]
        · rw [replay_cerr]
          simp [List.filter_append, filter_ite, readDiags_isCompilationFailed,
            Diag.isCompilationFailed, h0', hl, hg]

/-- When the driver answers the queries on the shaders, the compilation
diagnostic of each stage follows the compile status of the shader of that
stage and carries its log. -/
theorem answered_compile_failure_tagged (env : Env) (f_path v_path g_path : Text)
    (out : Constructed) (vs fs gs p : Nat) (aV aF aG bV bF bG : Option Int)
    (hout : ShaderProgram env f_path v_path g_path = Except.ok out)
    (hops : operations out.calls =
      expectedOperations (decide (g_path = [])) vs fs gs p (sourceOf env.fs v_path)
        (sourceOf env.fs f_path) (sourceOf env.fs g_path) aV aF aG bV bF bG)
    (hans : out.calls.all answered = true) :
    (∀ stage sh a,
      (stage, sh, a) ∈ [(Stage.VERTEX, vs, aV), (Stage.FRAGMENT, fs, aF)]
        ++ (if g_path = [] then [] else [(Stage.GEOMETRY, gs, aG)]) →
      ∃ status, a = some status ∧
        (status ≠ 0 → out.cerr.filter (Diag.isCompilationFailed stage) = []) ∧
        (status = 0 → ∃ log, GLEvent.getShaderInfoLog sh 512 (some log) ∈ out.calls ∧
          log.length ≤ 511 ∧
          out.cerr.filter (Diag.isCompilationFailed stage) =
            [Diag.compilationFailed stage log])) ∧
    (g_path = [] → out.cerr.filter (Diag.isCompilationFailed Stage.GEOMETRY) = []) := by
  obtain ⟨an, hfit, rfl, -⟩ := run_returned env f_path v_path g_path out hout
  rw [operations_replay] at hops
  have hans' := List.all_eq_true.mp hans
  rw [replay_calls] at hans'
  have hnames : vs = an.vertexShader ∧ fs = an.fragmentShader ∧ aV = an.vertexStatus ∧
      aF = an.fragmentStatus ∧ (g_path ≠ [] → gs = an.geometryShader ∧ aG = an.geometryStatus) := by
    by_cases hg : g_path = [] <;> simp [expectedOperations, hg] at hops <;> simp [hops, hg]
  obtain ⟨rfl, rfl, rfl, rfl, hgeo⟩ := hnames
  constructor
  · intro stage sh a hmem
    simp only [List.mem_append, List.mem_cons, List.mem_singleton, List.not_mem_nil, or_false,
      Prod.mk.injEq] at hmem
    rcases hmem with (⟨rfl, rfl, rfl⟩ | ⟨rfl, rfl, rfl⟩) | hmem
    · exact stage_vertex env f_path v_path g_path an hfit
        (hans' _ (by simp)) (fun h0 => hans' _ (by simp [h0]))
    · exact stage_fragment env f_path v_path g_path an hfit
        (hans' _ (by simp)) (fun h0 => hans' _ (by simp [h0]))
    · by_cases hg : g_path = []
      · simp [hg] at hmem
      · simp only [if_neg hg, List.mem_singleton, Prod.mk.injEq] at hmem
        obtain ⟨rfl, rfl, rfl⟩ := hmem
        obtain ⟨rfl, rfl⟩ := hgeo hg
        exact stage_geometry env f_path v_path g_path an hfit hg
          (hans' _ (by simp [hg])) (fun h0 => hans' _ (by simp [hg, h0]))
  · intro hg
    rw [replay_cerr]
    simp [List.filter_append, filter_ite, readDiags_isCompilationFailed,
      Diag.isCompilationFailed, hg]

/-- C6: the compilation diagnostic of a stage does not always follow the
compile status of the shader of that stage.  It does when the driver answers
the queries on the shaders: the diagnostic tagged with the stage is then
written exactly when the compile status of the shader of that stage is zero,
once, with the text `ERROR::SHADER::<stage>::COMPILATION_FAILED`, a line feed,
the log of that shader cut to 511 characters and a line feed, and whatever the
statuses are the later calls are made.  But `success` is one local, never
initialised nor reset, and a query that the driver does not answer leaves it
as it was: in a context without geometry shaders, where
`glCreateShader(GL_GEOMETRY_SHADER)` returns zero, with a fragment shader that
fails to compile and a non-empty `g_path`, no compile status is reported for
the geometry stage and the constructor still writes
`ERROR::SHADER::GEOMETRY::COMPILATION_FAILED`, followed by the log of the
fragment shader. -/
theorem stale_status_tags_geometry :
    (∀ (env : Env) (f_path v_path g_path : Text),
      env.filesReadToEnd f_path v_path g_path = true →
      ∃ out vs fs gs p aV aF aG bV bF bG,
        ShaderProgram env f_path v_path g_path = Except.ok out ∧
        operations out.calls =
          expectedOperations (decide (g_path = [])) vs fs gs p (sourceOf env.fs v_path)
            (sourceOf env.fs f_path) (sourceOf env.fs g_path) aV aF aG bV bF bG) ∧
    (∀ (env : Env) (f_path v_path g_path : Text) (out : Constructed) (vs fs gs p : Nat)
        (aV aF aG bV bF bG : Option Int),
      ShaderProgram env f_path v_path g_path = Except.ok out →
      operations out.calls =
        expectedOperations (decide (g_path = [])) vs fs gs p (sourceOf env.fs v_path)
          (sourceOf env.fs f_path) (sourceOf env.fs g_path) aV aF aG bV bF bG →
      out.calls.all answered = true →
      (∀ stage sh a,
        (stage, sh, a) ∈ [(Stage.VERTEX, vs, aV), (Stage.FRAGMENT, fs, aF)]
          ++ (if g_path = [] then [] else [(Stage.GEOMETRY, gs, aG)]) →
        ∃ status, a = some status ∧
          (status ≠ 0 → out.cerr.filter (Diag.isCompilationFailed stage) = []) ∧
          (status = 0 → ∃ log, GLEvent.getShaderInfoLog sh 512 (some log) ∈ out.calls ∧
            log.length ≤ 511 ∧
            out.cerr.filter (Diag.isCompilationFailed stage) =
              [Diag.compilationFailed stage log])) ∧
      (g_path = [] → out.cerr.filter (Diag.isCompilationFailed Stage.GEOMETRY) = [])) ∧
    (∀ (stage : Stage) (log : Text), (Diag.compilationFailed stage log).render =
      "ERROR::SHADER::".toList ++ stage.tag ++ "::COMPILATION_FAILED\n".toList ++ log
        ++ "\n".toList) ∧
    Stage.VERTEX.tag = "VERTEX".toList ∧ Stage.FRAGMENT.tag = "FRAGMENT".toList ∧
    Stage.GEOMETRY.tag = "GEOMETRY".toList ∧
    ShaderProgram (sampleEnv noGeometrySupport) "shader.frag".toList "shader.vert".toList
      "shader.geom".toList = Except.ok noGeometryOutcome ∧
    noGeometryOutcome.calls.filter
        (fun e => e matches GLEvent.createShader Stage.GEOMETRY _) =
      [GLEvent.createShader Stage.GEOMETRY 0] ∧
    noGeometryOutcome.calls.filter (fun e => e matches GLEvent.getShaderiv 0 _ _) =
      [GLEvent.getShaderiv 0 PName.COMPILE_STATUS none] ∧
    noGeometryOutcome.calls.filter (fun e => e matches GLEvent.getShaderInfoLog _ _ _) =
      [GLEvent.getShaderInfoLog 2 512 (some "0:2: unexpected token".toList),
        GLEvent.getShaderInfoLog 0 512 none] ∧
    noGeometryOutcome.cerr.filter (Diag.isCompilationFailed Stage.GEOMETRY) =
      [Diag.compilationFailed Stage.GEOMETRY "0:2: unexpected token".toList] ∧
    (Diag.compilationFailed Stage.GEOMETRY "0:2: unexpected token".toList).render =
      "ERROR::SHADER::GEOMETRY::COMPILATION_FAILED\n0:2: unexpected token\n".toList := by
  refine ⟨?_, ?_, ?_, rfl, rfl, rfl, rfl, by decide, by decide, by decide, by decide,
    by decide⟩
  · intro env f_path v_path g_path hread
    obtain ⟨an, -, hrun⟩ := run_returns env f_path v_path g_path hread
    exact ⟨_, _, _, _, _, _, _, _, _, _, _, hrun, operations_replay env f_path v_path g_path an⟩
  · intro env f_path v_path g_path out vs fs gs p aV aF aG bV bF bG hout hops hans
    exact answered_compile_failure_tagged env f_path v_path g_path out vs fs gs p aV aF aG bV bF
      bG hout hops hans
  · intro stage log
    simp [Diag.render, LF]

/-- The diagnostics of `readFile` among those of a construction. -/
theorem readDiags_isCouldNotRead (fs : Text → Option File) (filePath : Text) :
    (readDiags fs filePath).filter Diag.isCouldNotRead =
      if (fs filePath).isNone then [Diag.couldNotRead filePath] else [] := by
  unfold readDiags
  cases fs filePath <;> simp [Diag.isCouldNotRead]

/-- The entry points called do not depend on names, texts or answers. -/
theorem expectedOperations_names (gEmpty : Bool) (vs fs gs p vs' fs' gs' p' : Nat)
    (vSrc fSrc gSrc vSrc' fSrc' gSrc' : Text)
    (aV aF aG bV bF bG aV' aF' aG' bV' bF' bG' : Option Int) :
    (expectedOperations gEmpty vs fs gs p vSrc fSrc gSrc aV aF aG bV bF bG).map GLEvent.name =
      (expectedOperations gEmpty vs' fs' gs' p' vSrc' fSrc' gSrc' aV' aF' aG' bV' bF' bG').map
        GLEvent.name := by
  cases gEmpty <;> simp [expectedOperations, GLEvent.name]

/-- The entry points called, apart from info log queries, by a construction
that returns or not. -/
theorem replayOutcome_names (env : Env) (f_path v_path g_path : Text) (an : Answers) :
    (operations (transcript (replayOutcome env f_path v_path g_path an))).map GLEvent.name =
      expectedNames (readHangs env.fs (c_str v_path)) (readHangs env.fs (c_str f_path))
        (readHangs env.fs (c_str g_path)) (decide (g_path = [])) := by
  by_cases h1 : readHangs env.fs (c_str v_path) = true
  · simp [replayOutcome, expectedNames, h1, transcript, hungVertex, operations, isFetch,
      GLEvent.name]
  by_cases h2 : readHangs env.fs (c_str f_path) = true
  · simp [replayOutcome, expectedNames, h1, h2, transcript, hungFragment, afterCompile_calls,
      Env.frame0, operations, filter_ite, isFetch, GLEvent.name]
  by_cases hg : g_path = []
  · subst hg
    simp only [replayOutcome, expectedNames, h1, h2, transcript]
    simp [operations_replay, expectedOperations, GLEvent.name]
  by_cases h3 : readHangs env.fs (c_str g_path) = true
  · simp [replayOutcome, expectedNames, h1, h2, h3, hg, transcript, hungGeometry,
      replayCompiled, afterCompile_calls, Env.frame0, operations, filter_ite, isFetch,
      GLEvent.name]
  · simp only [replayOutcome, expectedNames, h1, h2, h3, hg, transcript]
    simp [operations_replay, expectedOperations, GLEvent.name, hg]

/-- C5: when a file cannot be opened `readFile` writes the one diagnostic
`Could not read file <path>. File does not exist.` and returns the empty text,
and the source of that stage is then empty.  Every construction in which each
file read cannot be opened or is read to its end submits to the vertex shader
the text read at `v_path`, to the fragment shader the text read at `f_path`
and to the geometry shader, when `g_path` is not empty, the text read at
`g_path`; it writes one such diagnostic for each of these files that cannot be
opened; and it makes the same calls, apart from info log queries, and stores
the value of `glCreateProgram` in `id`, as with any other such file system,
one where the files can be opened included.  In every construction the entry
points called, apart from info log queries, are a function of which reads do
not return and of whether `g_path` is empty: a file that cannot be opened
counts as one that is read to its end. -/
theorem missing_file_empty_source (env : Env) (f_path v_path g_path : Text) :
    (∀ path cerr, env.fs path = none →
      readFile env.fs path cerr = some ([], cerr ++ [Diag.couldNotRead path])) ∧
    (∀ path : Text, (Diag.couldNotRead path).render =
      "Could not read file ".toList ++ path ++ ". File does not exist.\n".toList) ∧
    (∀ path, env.fs (c_str path) = none → sourceOf env.fs path = []) ∧
    (env.filesReadToEnd f_path v_path g_path = true →
      ∃ out vs fs gs p aV aF aG bV bF bG,
        ShaderProgram env f_path v_path g_path = Except.ok out ∧ out.id = p ∧
        operations out.calls =
          expectedOperations (decide (g_path = [])) vs fs gs p (sourceOf env.fs v_path)
            (sourceOf env.fs f_path) (sourceOf env.fs g_path) aV aF aG bV bF bG ∧
        out.cerr.filter Diag.isCouldNotRead =
          (if (env.fs (c_str v_path)).isNone then [Diag.couldNotRead (c_str v_path)] else [])
          ++ (if (env.fs (c_str f_path)).isNone then [Diag.couldNotRead (c_str f_path)] else [])
          ++ (if g_path = [] then []
              else if (env.fs (c_str g_path)).isNone then [Diag.couldNotRead (c_str g_path)]
              else []) ∧
        ∀ files : Text → Option File,
          Env.filesReadToEnd { env with fs := files } f_path v_path g_path = true →
          ∃ out' p', ShaderProgram { env with fs := files } f_path v_path g_path
              = Except.ok out' ∧
            out'.id = p' ∧ GLEvent.createProgram p' ∈ out'.calls ∧
            (operations out'.calls).map GLEvent.name =
              (operations out.calls).map GLEvent.name) ∧
    (operations (transcript (ShaderProgram env f_path v_path g_path))).map GLEvent.name =
      expectedNames (readHangs env.fs (c_str v_path)) (readHangs env.fs (c_str f_path))
        (readHangs env.fs (c_str g_path)) (decide (g_path = [])) := by
  refine ⟨?_, ?_, ?_, ?_, ?_⟩
  · intro path cerr h
    simp [readFile, h]
  · intro path
    simp [Diag.render, LF]
  · intro path h
    simp [sourceOf, readText, h, c_str]
  · intro hread
    obtain ⟨an, -, hrun⟩ := run_returns env f_path v_path g_path hread
    refine ⟨_, _, _, _, _, _, _, _, _, _, _, hrun, rfl,
      operations_replay env f_path v_path g_path an, ?_, ?_⟩
    · rw [replay_cerr]
      by_cases hg : g_path = [] <;>
        simp [List.filter_append, filter_ite, readDiags_isCouldNotRead, Diag.isCouldNotRead, hg]
    · intro files hfiles
      obtain ⟨an', -, hrun'⟩ := run_returns { env with fs := files } f_path v_path g_path hfiles
      refine ⟨_, _, hrun', rfl, ?_, ?_⟩
      · rw [replay_calls]
        simp [replay_id]
      · rw [operations_replay, operations_replay]
        exact expectedOperations_names _ _ _ _ _ _ _ _ _ _ _ _ _ _ _ _ _ _ _ _ _ _ _ _ _ _ _
  · obtain ⟨an, -, hrun⟩ := run_eq_replay env f_path v_path g_path
    rw [hrun]
    exact replayOutcome_names env f_path v_path g_path an

/-- C5 at a vertex path that names no file: the diagnostic, the empty source,
and a construction that returns with the sixteen calls of the vertex and
fragment stages. -/
theorem missing_file_empty_source_witness :
    sampleFiles (c_str "missing.vert".toList) = none ∧
    readFile sampleFiles "missing.vert".toList [] =
      some ([], [Diag.couldNotRead "missing.vert".toList]) ∧
    sourceOf sampleFiles "missing.vert".toList = [] ∧
    (sampleEnv okToolchain).filesReadToEnd "shader.frag".toList "missing.vert".toList []
      = true ∧
    (operations (transcript (ShaderProgram (sampleEnv okToolchain) "shader.frag".toList
        "missing.vert".toList []))).map GLEvent.name =
      expectedNames false false false true :=
  ⟨by decide,
    (missing_file_empty_source (sampleEnv okToolchain) "shader.frag".toList
      "missing.vert".toList []).1 "missing.vert".toList [] (by decide),
    (missing_file_empty_source (sampleEnv okToolchain) "shader.frag".toList
      "missing.vert".toList []).2.2.1 "missing.vert".toList (by decide),
    by decide,
    (missing_file_empty_source (sampleEnv okToolchain) "shader.frag".toList
      "missing.vert".toList []).2.2.2.2⟩

/-! ## The properties at the sample inputs -/

/-- C2 at the sample files with a program that fails to link: the construction
returns and its two link status queries are on the shaders 1 and 2. -/
theorem link_failure_unreported_witness :
    (sampleEnv linkRefused).filesReadToEnd "shader.frag".toList "shader.vert".toList [] = true ∧
    (∃ out, ShaderProgram (sampleEnv linkRefused) "shader.frag".toList "shader.vert".toList []
      = Except.ok out) ∧
    linkQueried validOutcome.calls = createdShaders validOutcome.calls :=
  ⟨by decide,
    (link_failure_unreported.1 (sampleEnv linkRefused) "shader.frag".toList
      "shader.vert".toList []).1 (by decide),
    (link_failure_unreported.1 (sampleEnv okToolchain) "shader.frag".toList
      "shader.vert".toList []).2 validOutcome rfl⟩

/-- C3 at the sample files: the construction returns and makes the sixteen
calls. -/
theorem empty_g_path_no_geometry_witness :
    (sampleEnv okToolchain).filesReadToEnd "shader.frag".toList "shader.vert".toList [] = true ∧
    ∃ vs fs p aV aF bV bF out,
      ShaderProgram (sampleEnv okToolchain) "shader.frag".toList "shader.vert".toList []
        = Except.ok out ∧
      operations out.calls =
        [GLEvent.createShader Stage.VERTEX vs,
          GLEvent.shaderSource vs (sourceOf sampleFiles "shader.vert".toList),
          GLEvent.compileShader vs,
          GLEvent.getShaderiv vs PName.COMPILE_STATUS aV,
          GLEvent.createShader Stage.FRAGMENT fs,
          GLEvent.shaderSource fs (sourceOf sampleFiles "shader.frag".toList),
          GLEvent.compileShader fs,
          GLEvent.getShaderiv fs PName.COMPILE_STATUS aF,
          GLEvent.createProgram p,
          GLEvent.attachShader p vs,
          GLEvent.attachShader p fs,
          GLEvent.linkProgram p,
          GLEvent.getProgramiv vs PName.LINK_STATUS bV,
          GLEvent.getProgramiv fs PName.LINK_STATUS bF,
          GLEvent.deleteShader vs,
          GLEvent.deleteShader fs] :=
  ⟨by decide,
    match empty_g_path_no_geometry (sampleEnv okToolchain) "shader.frag".toList
      "shader.vert".toList with
    | ⟨vs, fs, p, aV, aF, bV, bF, _, h, _, _⟩ =>
      match h (by decide) with
      | ⟨out, hout, hops⟩ => ⟨vs, fs, p, aV, aF, bV, bF, out, hout, hops⟩⟩

/-- C6 at the sample files with a compiler that rejects the fragment shader and
a driver that answers every query on the shaders: the status of the fragment
shader is zero and the one compilation diagnostic tagged FRAGMENT carries its
log. -/
theorem stale_status_tags_geometry_witness :
    ShaderProgram (sampleEnv fragmentRejected) "shader.frag".toList "shader.vert".toList []
      = Except.ok fragmentRejectedOutcome ∧
    fragmentRejectedOutcome.calls.all answered = true ∧
    ∃ status, (some 0 : Option Int) = some status ∧
      (status ≠ 0 → fragmentRejectedOutcome.cerr.filter
        (Diag.isCompilationFailed Stage.FRAGMENT) = []) ∧
      (status = 0 → ∃ log, GLEvent.getShaderInfoLog 2 512 (some log) ∈
          fragmentRejectedOutcome.calls ∧
        log.length ≤ 511 ∧
        fragmentRejectedOutcome.cerr.filter (Diag.isCompilationFailed Stage.FRAGMENT) =
          [Diag.compilationFailed Stage.FRAGMENT log]) :=
  ⟨rfl, by decide,
    (stale_status_tags_geometry.2.1 (sampleEnv fragmentRejected) "shader.frag".toList
      "shader.vert".toList [] fragmentRejectedOutcome 1 2 0 3 (some 1) (some 0) none none none
      none rfl (by decide) (by decide)).1 Stage.FRAGMENT 2 (some 0) (by decide)⟩

/-- C7 at the sample files with the geometry shader `shader.geom`, which is
read to its end. -/
theorem geometry_directory_never_attached_witness :
    "shader.geom".toList ≠ [] ∧
    (sampleEnv okToolchain).filesReadToEnd "shader.frag".toList "shader.vert".toList
      "shader.geom".toList = true ∧
    ∃ out vs fs gs p aV aF aG bV bF bG,
      ShaderProgram (sampleEnv okToolchain) "shader.frag".toList "shader.vert".toList
        "shader.geom".toList = Except.ok out ∧ out.id = p ∧
      operations out.calls =
        [GLEvent.createShader Stage.VERTEX vs,
          GLEvent.shaderSource vs (sourceOf (sampleEnv okToolchain).fs "shader.vert".toList),
          GLEvent.compileShader vs,
          GLEvent.getShaderiv vs PName.COMPILE_STATUS aV,
          GLEvent.createShader Stage.FRAGMENT fs,
          GLEvent.shaderSource fs (sourceOf (sampleEnv okToolchain).fs "shader.frag".toList),
          GLEvent.compileShader fs,
          GLEvent.getShaderiv fs PName.COMPILE_STATUS aF,
          GLEvent.createShader Stage.GEOMETRY gs,
          GLEvent.shaderSource gs (sourceOf (sampleEnv okToolchain).fs "shader.geom".toList),
          GLEvent.compileShader gs,
          GLEvent.getShaderiv gs PName.COMPILE_STATUS aG,
          GLEvent.createProgram p,
          GLEvent.attachShader p vs,
          GLEvent.attachShader p fs,
          GLEvent.attachShader p gs,
          GLEvent.linkProgram p,
          GLEvent.getProgramiv vs PName.LINK_STATUS bV,
          GLEvent.getProgramiv fs PName.LINK_STATUS bF,
          GLEvent.getProgramiv gs PName.LINK_STATUS bG,
          GLEvent.deleteShader vs,
          GLEvent.deleteShader fs,
          GLEvent.deleteShader gs] :=
  ⟨by decide, by decide,
    geometry_directory_never_attached.1 (sampleEnv okToolchain) "shader.frag".toList
      "shader.vert".toList "shader.geom".toList (by decide) (by decide)⟩

/-- C9 at the sample files: the construction returns, and the two shaders
created are the two deleted, after the link. -/
theorem directory_read_leaks_shader_witness :
    ShaderProgram (sampleEnv okToolchain) "shader.frag".toList "shader.vert".toList []
      = Except.ok validOutcome ∧
    ∃ p, deletedShaders validOutcome.calls = createdShaders validOutcome.calls ∧
      (∀ name, (deletedShaders validOutcome.calls).count name =
        (createdShaders validOutcome.calls).count name) ∧
      validOutcome.calls.filter isLinkOrDelete =
        GLEvent.linkProgram p :: (createdShaders validOutcome.calls).map GLEvent.deleteShader :=
  ⟨rfl,
    directory_read_leaks_shader.1 (sampleEnv okToolchain) "shader.frag".toList
      "shader.vert".toList [] validOutcome rfl⟩

end Engine
